import Mathlib

/-!
# qslrm dashboard: data fetcher, refresh effect and trigger demo

A shallow embedding of `frontend/src/App.js`: the asynchronous functions
`fetchData` and `runTriggerDemo` are programs over an explicit component state
that record every setter call, every HTTP request and every render React makes
while they wait; a render that throws unmounts the component, after which its
state no longer changes. The `useEffect` that owns the refresh timer is a step
function over the live timers and the fetches started.
-/

namespace Qslrm

/-! ## JavaScript values -/

/-- A JavaScript string, as its sequence of UTF-16 code units. -/
abbrev JsString := List Nat

/-- UTF-16 code units of one Unicode scalar value. -/
def utf16Char (c : Char) : List Nat :=
  if c.toNat < 65536 then [c.toNat]
  else [55296 + (c.toNat - 65536) / 1024, 56320 + (c.toNat - 65536) % 1024]

/-- The JavaScript string written by a source literal. -/
def utf16 (s : String) : JsString :=
  (s.toList.map utf16Char).flatten

/-- A thrown JavaScript error object: its `name` and its `message`. -/
structure JsError where
  name : JsString
  message : JsString
deriving DecidableEq

/-- The `TypeError` raised by the language itself (reading a property of
`null`, calling what is not a function, failing to convert to a primitive). -/
def typeError (message : String) : JsError :=
  { name := utf16 "TypeError", message := utf16 message }

/-- The values `JSON.parse` can produce, and `undefined` (the result of reading
a missing property). A number is held as its canonical rendering `String(n)`:
two parsed numbers are `===` exactly when they render alike. -/
inductive JsVal where
  | undefined
  | null
  | bool (b : Bool)
  | num (rendering : JsString)
  | str (s : JsString)
  | arr (items : List JsVal)
  | obj (props : List (JsString × JsVal))

namespace JsVal

/-- Own property `key` of a parsed object: the last binding wins, as in
`JSON.parse`; `undefined` when there is none. -/
def lookup (key : JsString) (props : List (JsString × JsVal)) : JsVal :=
  match props.reverse.find? (fun p => decide (p.1 = key)) with
  | some p => p.2
  | none => undefined

/-- Whether a parsed object has an own property `key`. -/
def hasOwn (key : JsString) (props : List (JsString × JsVal)) : Bool :=
  props.any (fun p => decide (p.1 = key))

/-- `expr.slice(0, n)` where the expression `expr` has the given value: arrays
and strings keep their first `n` elements; `null` and `undefined` have no
properties; every other parsed value has no callable `slice`, and the error
names the expression. -/
def sliceTo (expr : String) (n : Nat) : JsVal → Except JsError JsVal
  | arr items => .ok (arr (items.take n))
  | str s => .ok (str (s.take n))
  | undefined => .error (typeError "Cannot read properties of undefined (reading 'slice')")
  | null => .error (typeError "Cannot read properties of null (reading 'slice')")
  | _ => .error (typeError (expr ++ ".slice is not a function"))

/-- `v.updated_at`: throws on `null` and `undefined`, reads the own property
of an object, and is `undefined` on every other parsed value. -/
def updatedAt : JsVal → Except JsError JsVal
  | undefined =>
    .error (typeError "Cannot read properties of undefined (reading 'updated_at')")
  | null => .error (typeError "Cannot read properties of null (reading 'updated_at')")
  | obj props => .ok (lookup (utf16 "updated_at") props)
  | _ => .ok undefined

mutual
/-- The string a template literal substitutes for a value (`ToString`). An
array joins its elements with commas; a parsed object is `[object Object]`
unless an own `toString` property (never callable) hides the inherited
method, in which case the conversion throws. -/
def render : JsVal → Except JsError JsString
  | undefined => .ok (utf16 "undefined")
  | null => .ok (utf16 "null")
  | bool true => .ok (utf16 "true")
  | bool false => .ok (utf16 "false")
  | num rendering => .ok rendering
  | str s => .ok s
  | arr items => renderItems items
  | obj props =>
    if hasOwn (utf16 "toString") props then
      .error (typeError "Cannot convert object to primitive value")
    else .ok (utf16 "[object Object]")
termination_by structural v => v
/-- The text of `Array.prototype.join` with the default separator: `null` and
`undefined` elements contribute the empty string. -/
def renderItems : List JsVal → Except JsError JsString
  | [] => .ok []
  | x :: rest =>
    let item : Except JsError JsString :=
      match x with
      | undefined => .ok []
      | null => .ok []
      | other => render other
    match rest with
    | [] => item
    | _ :: _ =>
      match item, renderItems rest with
      | .ok a, .ok b => .ok (a ++ utf16 "," ++ b)
      | .error e, _ => .error e
      | _, .error e => .error e
termination_by structural items => items
end

/-- The test `a !== b` on two values read from two separately parsed bodies:
primitives compare by type and value, while an array or an object is only
ever identical to itself, so two of them from different parses always differ. -/
def strictNe : JsVal → JsVal → Bool
  | undefined, undefined => false
  | null, null => false
  | bool a, bool b => decide (a ≠ b)
  | num a, num b => decide (a ≠ b)
  | str a, str b => decide (a ≠ b)
  | _, _ => true


/-- Whether a value is `null` or `undefined`. -/
def isNullish : JsVal → Bool
  | undefined => true
  | null => true
  | _ => false

/-- Whether a value counts as true in a condition: `undefined`, `null`,
`false`, zero and the empty string do not. -/
def truthy : JsVal → Bool
  | undefined => false
  | null => false
  | bool b => b
  | num rendering => !(decide (rendering = utf16 "0"))
  | str s => !s.isEmpty
  | arr _ => true
  | obj _ => true

/-- The expression `a || b`. -/
def orElse (a b : JsVal) : JsVal := if a.truthy then a else b

/-- The expression `v?.key` for one of the data fields the view reads (none
of them a built-in property): the own property of an object, `undefined` on
every other value, `null` and `undefined` included. -/
def optGet (key : String) : JsVal → JsVal
  | obj props => lookup (utf16 key) props
  | _ => undefined

mutual
/-- Whether React accepts a value as a child: text, numbers, and the values
that draw nothing are accepted, an array is accepted when all its elements
are, and a plain object is refused with an error. -/
def validChild : JsVal → Bool
  | arr items => validChildren items
  | obj _ => false
  | _ => true
termination_by structural v => v
/-- Whether React accepts every element of an array of children. -/
def validChildren : List JsVal → Bool
  | [] => true
  | x :: rest => validChild x && validChildren rest
termination_by structural items => items
end

end JsVal

/-! ## HTTP -/

/-- The request methods the component uses. -/
inductive Method where
  | GET
  | PUT
deriving DecidableEq

/-- One call of `fetch`: method, URL, headers and (already serialised) body. -/
structure Request where
  method : Method
  url : JsString
  headers : List (JsString × JsString)
  body : Option JsString
deriving DecidableEq

/-- A `fetch(url)` with no options. -/
def Request.get (url : JsString) : Request :=
  { method := .GET, url := url, headers := [], body := none }

/-- What a resolved `fetch` yields: the status line and the outcome of
`.json()` on the body (the parsed value, or the parse error). -/
structure Response where
  status : Nat
  json : Except JsError JsVal

/-- The `ok` flag of a response: a status in 200..299. The component never
reads it. -/
def Response.ok (r : Response) : Bool :=
  decide (200 ≤ r.status) && decide (r.status ≤ 299)

/-! ## Component state -/

/-- The `type` of a log entry: the five string literals passed to `addResult`. -/
inductive ResultType where
  | info
  | success
  | warning
  | error
  | trigger
deriving DecidableEq, Repr

/-- One entry of `triggerDemo.results`. -/
structure LogEntry where
  message : JsString
  type : ResultType
  time : JsString
deriving DecidableEq

/-- The `triggerDemo` state object. -/
structure TriggerDemo where
  before : JsVal
  after : JsVal
  isRunning : Bool
  results : List LogEntry

/-- The `useState` cells of `App`. -/
structure AppState where
  activeTab : JsString
  dashboard : JsVal
  loading : Bool
  autoRefresh : Bool
  systemHealth : JsVal
  frameworks : JsVal
  researchers : JsVal
  projects : JsVal
  simulations : JsVal
  selectedTrigger : JsVal
  triggerDemo : TriggerDemo

/-- The initial values given to `useState`. -/
def AppState.initial : AppState :=
  { activeTab := utf16 "overview"
    dashboard := .null
    loading := true
    autoRefresh := true
    systemHealth := .null
    frameworks := .arr []
    researchers := .arr []
    projects := .arr []
    simulations := .arr []
    selectedTrigger := .null
    triggerDemo := { before := .null, after := .null, isRunning := false, results := [] } }

/-- The part of the state the main view reads (App.js 119-382 and 397-447):
it reads neither `loading`, `projects`, `simulations` nor `selectedTrigger`. -/
structure Shown where
  activeTab : JsString
  autoRefresh : Bool
  dashboard : JsVal
  systemHealth : JsVal
  frameworks : JsVal
  researchers : JsVal
  triggerDemo : TriggerDemo

/-- What the main view is given in state `s`. -/
def AppState.shown (s : AppState) : Shown :=
  { activeTab := s.activeTab
    autoRefresh := s.autoRefresh
    dashboard := s.dashboard
    systemHealth := s.systemHealth
    frameworks := s.frameworks
    researchers := s.researchers
    triggerDemo := s.triggerDemo }

/-! ## The environment -/

/-- Everything outside the component during one invocation: the outcome of
the k-th `fetch` issued (a rejection, or a response; every `fetch` settles),
the locale time string stamped on the k-th log entry, the value of
`Date.now()`, and whether React and the chart library draw the main view of
a state without throwing. -/
structure Env where
  respond : Nat → Request → Except JsError Response
  entryTime : Nat → JsString
  now : Nat
  view : Shown → Bool

/-- Whether `App` renders in state `s` without throwing (App.js 384-447):
with `loading && !dashboard` it returns the loading screen, which shows no
data; otherwise it returns the main view. -/
def renders (env : Env) (s : AppState) : Bool :=
  (s.loading && !s.dashboard.truthy) || env.view s.shown

/-! ## Asynchronous programs -/

/-- One render: the state React was given, the states the setter calls had
produced until then, and whether the render went through. -/
structure Frame where
  state : AppState
  history : List AppState
  ok : Bool

/-- The course of one invocation so far: the state the setter calls made so
far add up to, every state a setter call produced (oldest first), the renders
React made while the function was waiting, the requests issued, what went to
`console.error`, the pacing delays awaited, and how many log entries were
stamped. -/
structure Sys where
  posted : AppState
  posts : List AppState
  frames : List Frame
  requests : List Request
  console : List (JsString × JsError)
  delays : List Nat
  stamps : Nat

namespace Sys

/-- The first render that threw, if any. `App` has no error boundary: that
render unmounted the component, and every later setter call is dropped. -/
def failed (s : Sys) : Option Frame := s.frames.find? fun f => !f.ok

/-- Whether the component is still mounted: no render has thrown. -/
def mounted (s : Sys) : Bool := s.frames.all fun f => f.ok

/-- The state of the component: what the setter calls add up to while it is
mounted, and from the first render that threw the state that render was
given. -/
def state (s : Sys) : AppState :=
  match s.failed with
  | some f => f.state
  | none => s.posted

/-- The states the component took, oldest first: those the setter calls
produced before the first render that threw. -/
def history (s : Sys) : List AppState :=
  match s.failed with
  | some f => f.history
  | none => s.posts

/-- The start of an invocation on a mounted component in state `s`. -/
def start (s : AppState) : Sys :=
  { posted := s, posts := [], frames := [], requests := [], console := [], delays := [],
    stamps := 0 }

/-- React renders what has been posted (the function is waiting). -/
def render (env : Env) (s : Sys) : Sys :=
  { s with
    frames := s.frames ++ [{ state := s.posted, history := s.posts, ok := renders env s.posted }] }

end Sys

/-- A piece of an `async` function body: it runs on the course so far and
either completes with a value or throws. -/
def Prog (α : Type) : Type := Sys → Except JsError α × Sys

namespace Prog

/-- Completing with a value. -/
def ret {α : Type} (a : α) : Prog α := fun s => (.ok a, s)

/-- Sequencing: a throw skips the rest. -/
def andThen {α β : Type} (p : Prog α) (f : α → Prog β) : Prog β := fun s =>
  match p s with
  | (.ok a, s1) => f a s1
  | (.error e, s1) => (.error e, s1)

instance : Monad Prog where
  pure := ret
  bind := andThen

/-- The outcome of an expression that may throw. -/
def eval {α : Type} (r : Except JsError α) : Prog α := fun s => (r, s)

/-- A state setter called with an updater function. The update is posted;
React applies it at its next render, unless the component has unmounted by
then (`Sys.state`). -/
def update (f : AppState → AppState) : Prog Unit := fun s =>
  (.ok (), { s with posted := f s.posted, posts := s.posts ++ [f s.posted] })

/-- The expression `await fetch(...)`: the request goes out, and React
renders while the function waits for the response. -/
def fetch (env : Env) (req : Request) : Prog Response := fun s =>
  (env.respond s.requests.length req,
    Sys.render env { s with requests := s.requests ++ [req] })

/-- The expression `await res.json()`. No setter is called between the
`fetch` and it, so a render here shows what the last one showed. -/
def json (res : Response) : Prog JsVal := eval res.json

/-- The statement `await new Promise(resolve => setTimeout(resolve, ms))`:
React renders while the function waits. -/
def delay (env : Env) (ms : Nat) : Prog Unit := fun s =>
  (.ok (), Sys.render env { s with delays := s.delays ++ [ms] })

/-- The call `console.error(label, error)`. -/
def consoleError (label : JsString) (e : JsError) : Prog Unit := fun s =>
  (.ok (), { s with console := s.console ++ [(label, e)] })

/-- The statement `try body catch (error) handler finally cleanup`. -/
def tryCatchFinally (body : Prog Unit) (handler : JsError → Prog Unit)
    (cleanup : Prog Unit) : Prog Unit := fun s =>
  match body s with
  | (.ok _, s1) => cleanup s1
  | (.error e, s1) =>
    match handler e s1 with
    | (.ok _, s2) => cleanup s2
    | (.error e2, s2) =>
      match cleanup s2 with
      | (.ok _, s3) => (.error e2, s3)
      | (.error e3, s3) => (.error e3, s3)

end Prog

/-- The course of a whole invocation of `p` on a mounted component in state
`s`, up to the point where the function returns. The render React makes once
it has returned comes after the invocation and is not part of its course. -/
def invoke (p : Prog Unit) (s : AppState) : Sys := (p (Sys.start s)).2

/-! ## `fetchData` -/

/-- The constant `API_BASE`. -/
def API_BASE : JsString := utf16 "http://localhost:5000/api"

/-- The setter `setLoading`. -/
def setLoading (v : Bool) : Prog Unit := Prog.update fun s => { s with loading := v }
/-- The setter `setDashboard`. -/
def setDashboard (v : JsVal) : Prog Unit := Prog.update fun s => { s with dashboard := v }
/-- The setter `setFrameworks`. -/
def setFrameworks (v : JsVal) : Prog Unit := Prog.update fun s => { s with frameworks := v }
/-- The setter `setSystemHealth`. -/
def setSystemHealth (v : JsVal) : Prog Unit :=
  Prog.update fun s => { s with systemHealth := v }
/-- The setter `setResearchers`. -/
def setResearchers (v : JsVal) : Prog Unit :=
  Prog.update fun s => { s with researchers := v }
/-- The setter `setProjects`. -/
def setProjects (v : JsVal) : Prog Unit := Prog.update fun s => { s with projects := v }
/-- The setter `setSimulations`. -/
def setSimulations (v : JsVal) : Prog Unit :=
  Prog.update fun s => { s with simulations := v }

/-- The function `fetchData` (App.js lines 34-65). -/
def fetchData (env : Env) : Prog Unit := do
  setLoading true
  Prog.tryCatchFinally
    (do
      let dashRes ← Prog.fetch env (.get (API_BASE ++ utf16 "/analytics/dashboard/enhanced"))
      let dashData ← Prog.json dashRes
      setDashboard dashData

      let fwRes ← Prog.fetch env (.get (API_BASE ++ utf16 "/analytics/frameworks"))
      let fwData ← Prog.json fwRes
      setFrameworks fwData

      let healthRes ← Prog.fetch env (.get (API_BASE ++ utf16 "/health"))
      let healthData ← Prog.json healthRes
      setSystemHealth healthData

      let resRes ← Prog.fetch env (.get (API_BASE ++ utf16 "/researchers"))
      let resData ← Prog.json resRes
      setResearchers (← Prog.eval (resData.sliceTo "resData" 10))

      let projRes ← Prog.fetch env (.get (API_BASE ++ utf16 "/projects"))
      let projData ← Prog.json projRes
      setProjects (← Prog.eval (projData.sliceTo "projData" 10))

      let simRes ← Prog.fetch env (.get (API_BASE ++ utf16 "/simulations"))
      let simData ← Prog.json simRes
      setSimulations (← Prog.eval (simData.sliceTo "simData" 10)))
    (fun error => Prog.consoleError (utf16 "Error fetching data:") error)
    (setLoading false)

/-! ## `runTriggerDemo` -/

/-- The setter `setTriggerDemo`, called with an updater function. -/
def setTriggerDemo (f : TriggerDemo → TriggerDemo) : Prog Unit :=
  Prog.update fun s => { s with triggerDemo := f s.triggerDemo }

/-- The closure `addResult` (App.js lines 70-75): appends one entry, stamped
with the locale time at which it is made. -/
def addResult (env : Env) (message : JsString) (type : ResultType) : Prog Unit := fun s =>
  setTriggerDemo
    (fun prev =>
      { prev with
        results := prev.results ++
          [{ message := message, type := type, time := env.entryTime s.stamps }] })
    { s with stamps := s.stamps + 1 }

/-- The `PUT` of the demo: a JSON body holding an email made unique by
`Date.now()`. -/
def putRequest (env : Env) : Request :=
  { method := .PUT
    url := API_BASE ++ utf16 "/researchers/1"
    headers := [(utf16 "Content-Type", utf16 "application/json")]
    body := some (utf16 "\x7b\"email\":\"alice.trigger-" ++ utf16 (toString env.now)
      ++ utf16 "@quantumlab.edu\"\x7d") }

/-- The function `runTriggerDemo` (App.js lines 67-117). -/
def runTriggerDemo (env : Env) (demoType : JsString) : Prog Unit := do
  setTriggerDemo fun _ => { before := .null, after := .null, isRunning := true, results := [] }
  Prog.tryCatchFinally
    (if demoType = utf16 "researcher" then do
      addResult env (utf16 "📊 Fetching current researcher data...") .info
      let beforeRes ← Prog.fetch env (.get (API_BASE ++ utf16 "/researchers/1"))
      let beforeData ← Prog.json beforeRes
      setTriggerDemo fun prev => { prev with before := beforeData }
      addResult env
        (utf16 "✅ BEFORE: updated_at = "
          ++ (← Prog.eval ((beforeData.updatedAt).bind JsVal.render)))
        .success

      Prog.delay env 1500

      addResult env (utf16 "🔥 Triggering UPDATE (email change)...") .warning
      let _ ← Prog.fetch env (putRequest env)

      Prog.delay env 1500

      addResult env (utf16 "📊 Fetching updated researcher data...") .info
      let afterRes ← Prog.fetch env (.get (API_BASE ++ utf16 "/researchers/1"))
      let afterData ← Prog.json afterRes
      setTriggerDemo fun prev => { prev with after := afterData }
      addResult env
        (utf16 "✅ AFTER: updated_at = "
          ++ (← Prog.eval ((afterData.updatedAt).bind JsVal.render)))
        .success

      Prog.delay env 1000

      if JsVal.strictNe (← Prog.eval beforeData.updatedAt) (← Prog.eval afterData.updatedAt)
      then addResult env (utf16 "🎉 TRIGGER WORKED! Timestamp automatically updated!") .trigger
      else addResult env (utf16 "⚠️ Timestamps are the same") .warning
    else pure ())
    (fun error => addResult env (utf16 "❌ Error: " ++ error.message) .error)
    (setTriggerDemo fun prev => { prev with isRunning := false })

/-! ## The refresh effect -/

/-- A live interval timer: the id `setInterval` returned and its period in
milliseconds. Its callback is always `fetchData`. -/
structure Timer where
  id : Nat
  period : Nat
deriving DecidableEq

/-- What started a call of `fetchData`. -/
inductive FetchCause where
  | effect
  | timer (id : Nat)
  | manual
deriving DecidableEq

/-- The mounted component as the refresh effect sees it: the `autoRefresh`
flag, the live timers, the next id `setInterval` will hand out (ids are
positive), the `interval` captured by the cleanup of the last effect run, and
the fetches started so far. -/
structure Refresh where
  autoRefresh : Bool
  timers : List Timer
  nextId : Nat
  interval : Option Nat
  fetches : List FetchCause

/-- The body of the effect (App.js lines 29-31): an unconditional
`fetchData()`, then `setInterval(fetchData, 5000)` when `autoRefresh` holds. -/
def runEffect (r : Refresh) : Refresh :=
  let r1 := { r with fetches := r.fetches ++ [FetchCause.effect] }
  if r1.autoRefresh then
    { r1 with
      timers := r1.timers ++ [{ id := r1.nextId, period := 5000 }]
      nextId := r1.nextId + 1
      interval := some r1.nextId }
  else { r1 with interval := none }

/-- The cleanup `() => interval && clearInterval(interval)`: a captured id
that is `null` or `0` is falsy and clears nothing. -/
def runCleanup (r : Refresh) : Refresh :=
  match r.interval with
  | none => r
  | some id =>
    if id = 0 then r else { r with timers := r.timers.filter fun t => decide (t.id ≠ id) }

/-- The first render: `autoRefresh` starts `true` and the effect runs once. -/
def mount : Refresh :=
  runEffect { autoRefresh := true, timers := [], nextId := 1, interval := none, fetches := [] }

/-- What can happen to the mounted component. -/
inductive Event where
  | toggle
  | tick (id : Nat)
  | refreshNow
deriving DecidableEq

/-- One event. A click on the toggle runs `setAutoRefresh(!autoRefresh)`; the
dependency changed, so the previous cleanup runs and then the effect. A live
timer that fires calls `fetchData`; a cleared one never fires. "Refresh Now"
calls `fetchData`. -/
def step (r : Refresh) : Event → Refresh
  | .toggle => runEffect (runCleanup { r with autoRefresh := !r.autoRefresh })
  | .tick id =>
    if r.timers.any (fun t => decide (t.id = id)) then
      { r with fetches := r.fetches ++ [FetchCause.timer id] }
    else r
  | .refreshNow => { r with fetches := r.fetches ++ [FetchCause.manual] }

/-- A sequence of events, oldest first. -/
def run (r : Refresh) (events : List Event) : Refresh :=
  events.foldl step r

/-- Unmounting runs the last cleanup. -/
def unmount (r : Refresh) : Refresh := runCleanup r

/-! ## Vocabulary of the statements -/

/-- The URL of the k-th request of `fetchData`, counting from 0. -/
def fetchUrl : Nat → JsString
  | 0 => API_BASE ++ utf16 "/analytics/dashboard/enhanced"
  | 1 => API_BASE ++ utf16 "/analytics/frameworks"
  | 2 => API_BASE ++ utf16 "/health"
  | 3 => API_BASE ++ utf16 "/researchers"
  | 4 => API_BASE ++ utf16 "/projects"
  | _ => API_BASE ++ utf16 "/simulations"

/-- The variable `fetchData` slices for the k-th request. -/
def sliceName : Nat → String
  | 3 => "resData"
  | 4 => "projData"
  | _ => "simData"

/-- What the k-th request of `fetchData` yields for its slot: the parsed body
(cut to ten elements for the three list slots), or the error thrown while
fetching, parsing or slicing. The request succeeds when this is a value and
fails when it is an error. -/
def fetchValue (env : Env) (k : Nat) : Except JsError JsVal :=
  match env.respond k (.get (fetchUrl k)) with
  | .error e => .error e
  | .ok res =>
    match res.json with
    | .error e => .error e
    | .ok data => if k < 3 then .ok data else data.sliceTo (sliceName k) 10

/-- The k-th slot of `fetchData`, in the order dashboard, frameworks,
systemHealth, researchers, projects, simulations. -/
def slot : Nat → AppState → JsVal
  | 0, s => s.dashboard
  | 1, s => s.frameworks
  | 2, s => s.systemHealth
  | 3, s => s.researchers
  | 4, s => s.projects
  | _, s => s.simulations

/-- Writing the k-th slot. -/
def setSlot : Nat → JsVal → AppState → AppState
  | 0, v, s => { s with dashboard := v }
  | 1, v, s => { s with frameworks := v }
  | 2, v, s => { s with systemHealth := v }
  | 3, v, s => { s with researchers := v }
  | 4, v, s => { s with projects := v }
  | _, v, s => { s with simulations := v }

/-- The slots written by the listed requests, stopping at the first failure. -/
def storeAll (env : Env) : List Nat → AppState → AppState
  | [], s => s
  | k :: ks, s =>
    match fetchValue env k with
    | .ok v => storeAll env ks (setSlot k v s)
    | .error _ => s

/-- The requests issued for the listed slots, stopping after the first failure. -/
def issued (env : Env) : List Nat → List Request
  | [] => []
  | k :: ks =>
    Request.get (fetchUrl k) ::
      (match fetchValue env k with
       | .ok _ => issued env ks
       | .error _ => [])

/-- The states React renders while `fetchData` waits for the listed requests,
one per request issued. -/
def framesOf (env : Env) : List Nat → AppState → List AppState
  | [], _ => []
  | k :: ks, s =>
    s ::
      (match fetchValue env k with
       | .ok v => framesOf env ks (setSlot k v s)
       | .error _ => [])

/-- The first of the listed states whose render throws. -/
def firstBad (env : Env) (states : List AppState) : Option AppState :=
  states.find? fun u => !renders env u

/-! ## The view of `App.js`, and concrete environments -/

/-- Whether `OverviewTab` (App.js 119-200) evaluates without throwing:
`systemHealth?.status?.toUpperCase()` needs a string or nothing, the values
shown as text must be valid children, the multiplication of the fidelity
must convert to a number, and `frameworks.map` needs an array of elements
with properties. What the chart library does with the data it is handed is
not modelled: it is taken to draw them. -/
def overviewRenders (d : Shown) : Bool :=
  (match d.systemHealth.optGet "status" with
    | .undefined => true
    | .null => true
    | .str _ => true
    | _ => false)
  && ((d.systemHealth.optGet "database").orElse (.str (utf16 "Unknown"))).validChild
  && ((d.systemHealth.optGet "version").orElse (.str (utf16 "N/A"))).validChild
  && ((((d.dashboard.optGet "overview").optGet "total_researchers").orElse
        (.num (utf16 "0"))).validChild)
  && ((((d.dashboard.optGet "overview").optGet "total_projects").orElse
        (.num (utf16 "0"))).validChild)
  && ((((d.dashboard.optGet "overview").optGet "total_simulations").orElse
        (.num (utf16 "0"))).validChild)
  && (match (((d.dashboard.optGet "quality_metrics").optGet "avg_fidelity").orElse
        (.num (utf16 "0"))).render with
      | .ok _ => true
      | .error _ => false)
  && (match d.frameworks with
      | .arr items => items.all fun f => !f.isNullish
      | _ => false)

/-- Whether one of the two record panels of `TriggerDemoTab` draws (App.js
267-292 and 294-319): a falsy record draws nothing, a truthy one shows four
of its fields as children. -/
def recordRenders (record : JsVal) : Bool :=
  !record.truthy ||
    ((record.optGet "researcher_id").validChild && (record.optGet "full_name").validChild
      && (record.optGet "email").validChild && (record.optGet "updated_at").validChild)

/-- Whether `TriggerDemoTab` (App.js 202-331) draws: the log entries are text,
so only the two record panels can throw. -/
def demoRenders (d : Shown) : Bool :=
  recordRenders d.triggerDemo.before && recordRenders d.triggerDemo.after

/-- Whether one row of the researchers table draws (App.js 357-364). -/
def rowRenders (r : JsVal) : Bool :=
  !r.isNullish && (r.optGet "researcher_id").validChild && (r.optGet "full_name").validChild
    && (r.optGet "email").validChild && (r.optGet "institution").validChild

/-- Whether `DatabaseTab` (App.js 333-369) draws: `researchers.length` is shown
as text and `researchers.map` needs an array. -/
def databaseRenders (d : Shown) : Bool :=
  match d.researchers with
  | .arr items => items.all rowRenders
  | _ => false

/-- The main view of `App.js` (App.js 397-447): the header and the tab bar
are fixed text, and the tab named by `activeTab`, if any, is drawn below. -/
def appView (d : Shown) : Bool :=
  if d.activeTab = utf16 "overview" then overviewRenders d
  else if d.activeTab = utf16 "demo" then demoRenders d
  else if d.activeTab = utf16 "database" then databaseRenders d
  else true

/-- A state in which the demo can be started: the dashboard has loaded and
the demo tab is shown. -/
def demoReady : AppState :=
  { AppState.initial with
    activeTab := utf16 "demo"
    dashboard := .obj []
    loading := false }

/-- The rejection of `fetch` when the network is unreachable. -/
def networkError : JsError := typeError "Failed to fetch"

/-- The error of `.json()` on a body that is not JSON. -/
def parseError : JsError :=
  { name := utf16 "SyntaxError", message := utf16 "Unexpected token < in JSON at position 0" }

/-- An environment that answers the k-th request with the k-th listed outcome
and rejects every later one, and draws the view of `App.js`; the clock is
immaterial. -/
def scriptEnv (outcomes : List (Except JsError Response)) : Env :=
  { respond := fun k _ => outcomes.getD k (.error networkError)
    entryTime := fun _ => utf16 "12:00:00"
    now := 1704067200000
    view := appView }

/-- The same environment with every response carrying the status `st k`
instead of its own; bodies and rejections are unchanged. -/
def Env.withStatus (env : Env) (st : Nat → Nat) : Env :=
  { env with
    respond := fun k req =>
      match env.respond k req with
      | .error e => .error e
      | .ok r => .ok { r with status := st k } }

/-- The URL of the researcher record the demo reads and writes. -/
def researcherUrl : JsString := API_BASE ++ utf16 "/researchers/1"

/-- What handling a `GET` of the demo yields: the parsed body, its
`updated_at` and the text the log shows for it, or the error thrown while
fetching, parsing, reading `updated_at` or printing it. The request succeeds
when this is a value and fails when it is an error. -/
def getStep (o : Except JsError Response) : Except JsError (JsVal × JsVal × JsString) :=
  match o with
  | .error e => .error e
  | .ok res =>
    match res.json with
    | .error e => .error e
    | .ok data =>
      match data.updatedAt with
      | .error e => .error e
      | .ok stamp =>
        match stamp.render with
        | .error e => .error e
        | .ok text => .ok (data, stamp, text)

/-- The types of the entries of a log, in order. -/
def logTypes (log : List LogEntry) : List ResultType := log.map fun entry => entry.type

/-- The messages of the entries of a log, in order. -/
def logMessages (log : List LogEntry) : List JsString := log.map fun entry => entry.message

/-- The values a strict comparison compares by value: everything but arrays
and objects. -/
def JsVal.isPrimitive : JsVal → Bool
  | .arr _ => false
  | .obj _ => false
  | _ => true

/-- A response with status 200 whose body parses to `v`. -/
def okJson (v : JsVal) : Except JsError Response := .ok { status := 200, json := .ok v }

/-- A researcher record whose `updated_at` is the given value. -/
def recordAt (stamp : JsVal) : JsVal :=
  .obj [(utf16 "researcher_id", .num (utf16 "1")), (utf16 "updated_at", stamp)]

/-- The same environment with every `GET` whose body does not parse turned
into a rejected `fetch` carrying the parse error. -/
def Env.rejectUnparsed (env : Env) : Env :=
  { env with
    respond := fun k req =>
      match env.respond k req with
      | .error e => .error e
      | .ok r =>
        match req.method, r.json with
        | .GET, .error e => .error e
        | _, _ => .ok r }

/-- The body of an error response. -/
def errorBody : JsVal := .obj [(utf16 "error", .str (utf16 "Internal Server Error"))]

/-- A response with status 500 whose body parses to `errorBody`. -/
def serverError : Except JsError Response := .ok { status := 500, json := .ok errorBody }

/-- The timers agree with the flag: with `autoRefresh` on there is exactly
one live timer, of period 5000 ms, whose positive id is the one the pending
cleanup captured; with it off there is no timer and nothing captured. -/
def Refresh.consistent (r : Refresh) : Bool :=
  match r.autoRefresh, r.timers, r.interval with
  | true, [t], some id =>
    decide (t.id = id) && decide (t.period = 5000) && decide (0 < id) && decide (id < r.nextId)
  | false, [], none => decide (0 < r.nextId)
  | _, _, _ => false

/-- The fetches that "Refresh Now" clicks among the events start. -/
def manualFetches (events : List Event) : List FetchCause :=
  (events.filter fun e => decide (e = Event.refreshNow)).map fun _ => FetchCause.manual


/-- One researcher record. -/
def sampleResearcher (n : Nat) : JsVal :=
  .obj [(utf16 "researcher_id", .num (utf16 (toString n))),
    (utf16 "full_name", .str (utf16 "Alice")),
    (utf16 "email", .str (utf16 "alice@quantumlab.edu")),
    (utf16 "institution", .str (utf16 "Quantum Lab")),
    (utf16 "updated_at", .str (utf16 "2024-01-01T00:00:00Z"))]

/-- The bodies of an ordinary load, by request. -/
def sampleBody : Nat → JsVal
  | 0 => .obj [(utf16 "overview", .obj [(utf16 "total_researchers", .num (utf16 "12"))])]
  | 1 => .arr [.obj [(utf16 "framework", .str (utf16 "qiskit")),
      (utf16 "total_simulations", .num (utf16 "3"))]]
  | 2 => .obj [(utf16 "status", .str (utf16 "ok"))]
  | 3 => .arr ((List.range 12).map sampleResearcher)
  | _ => .arr []

/-- A backend that answers every request of `fetchData` with its body of
`sampleBody`. -/
def sampleEnv : Env :=
  { respond := fun k _ => okJson (sampleBody k)
    entryTime := fun _ => utf16 "12:00:00"
    now := 1704067200000
    view := appView }

/-- A backend whose frameworks endpoint answers with an error object while
every other request is answered as expected. -/
def brokenFrameworksEnv : Env :=
  scriptEnv [okJson (.obj []), okJson errorBody,
    okJson (.obj [(utf16 "status", .str (utf16 "ok"))]), okJson (.arr []),
    okJson (.arr [.str (utf16 "p")]), okJson (.arr [])]

/-- A backend whose frameworks endpoint answers with an error object and
whose researchers request is rejected. -/
def brokenHealthEnv : Env :=
  scriptEnv [okJson (.obj []), okJson errorBody,
    okJson (.obj [(utf16 "status", .str (utf16 "ok"))]), .error networkError]

/-- A backend on which the demo's two `GET`s and its `PUT` succeed, the
record carrying `before` as its `updated_at` at the first `GET` and `after`
at the second. -/
def stampedEnv (before after : JsVal) : Env :=
  scriptEnv [okJson (recordAt before), okJson (.obj []), okJson (recordAt after)]

/-- A backend that answers the demo's first `GET` with a record carrying
`before` as its `updated_at` and rejects the `PUT`. -/
def putRejectedEnv (before : JsVal) : Env :=
  scriptEnv [okJson (recordAt before), .error networkError]

/-- A backend that answers the demo's first `GET` with a record carrying
`before` as its `updated_at`, accepts the `PUT` and rejects the second `GET`. -/
def secondGetRejectedEnv (before : JsVal) : Env :=
  scriptEnv [okJson (recordAt before), okJson (.obj []), .error networkError]

/-- A backend whose first three bodies are empty strings and whose
researchers endpoint answers with an object, which has no `slice`. -/
def unsliceableEnv : Env :=
  scriptEnv [okJson (.str []), okJson (.str []), okJson (.str []), okJson (.obj [])]

/-- A property of the state and the states before it that holds of what the
setter calls add up to and of every render made: it then holds of the
component whether or not a render threw. -/
def Sys.always (P : AppState → List AppState → Prop) (s : Sys) : Prop :=
  P s.posted s.posts ∧ ∀ f ∈ s.frames, P f.state f.history

/-! # Theorems -/

namespace Sys

theorem state_of_mounted (s : Sys) (h : s.mounted = true) :
    s.state = s.posted ∧ s.history = s.posts := by
  have hf : s.failed = none := by
    simp only [Sys.failed, List.find?_eq_none]
    intro f hf
    simp only [Sys.mounted, List.all_eq_true] at h
    simp [h f hf]
  simp [Sys.state, Sys.history, hf]

theorem state_cases (P : AppState → List AppState → Prop) (s : Sys)
    (hp : P s.posted s.posts) (hf : ∀ f ∈ s.frames, P f.state f.history) :
    P s.state s.history := by
  unfold Sys.state Sys.history
  cases h : s.failed with
  | none => exact hp
  | some f => exact hf f (List.mem_of_find?_eq_some h)

theorem failed_state (env : Env) (s : Sys) (us : List AppState)
    (h : s.frames.map (fun f => (f.state, f.ok)) = us.map fun u => (u, renders env u)) :
    s.failed.map (fun f => f.state) = firstBad env us := by
  have h1 := congrArg (fun l => (l.find? fun p : AppState × Bool => !p.2).map Prod.fst) h
  simp only [List.find?_map, Option.map_map] at h1
  simpa [Sys.failed, firstBad, Function.comp_def] using h1

theorem state_eq (env : Env) (s : Sys) (us : List AppState)
    (h : s.frames.map (fun f => (f.state, f.ok)) = us.map fun u => (u, renders env u)) :
    s.state = (firstBad env us).getD s.posted
      ∧ (s.mounted = true ↔ firstBad env us = none) := by
  have hf := failed_state env s us h
  constructor
  · unfold Sys.state
    cases hfail : s.failed with
    | none => simp [← hf, hfail]
    | some f => simp [← hf, hfail]
  · rw [← hf]
    simp only [Sys.mounted, Sys.failed, Option.map_eq_none', List.find?_eq_none,
      List.all_eq_true]
    constructor
    · intro hall f hmem
      simp [hall f hmem]
    · intro hall f hmem
      simpa using hall f hmem

end Sys

namespace Prog

theorem fetch_bind {β : Type} (env : Env) (req : Request) (f : Response → Prog β) (s : Sys) :
    (Prog.fetch env req >>= f) s =
      match env.respond s.requests.length req with
      | .ok r => f r (Sys.render env { s with requests := s.requests ++ [req] })
      | .error e => (.error e, Sys.render env { s with requests := s.requests ++ [req] }) := by
  show Prog.andThen (Prog.fetch env req) f s = _
  simp only [Prog.andThen, Prog.fetch]
  cases env.respond s.requests.length req <;> rfl

theorem eval_bind {α β : Type} (r : Except JsError α) (f : α → Prog β) (s : Sys) :
    (Prog.eval r >>= f) s =
      match r with
      | .ok a => f a s
      | .error e => (.error e, s) := by
  show Prog.andThen (Prog.eval r) f s = _
  simp only [Prog.andThen, Prog.eval]
  cases r <;> rfl

theorem json_bind {β : Type} (res : Response) (f : JsVal → Prog β) (s : Sys) :
    (Prog.json res >>= f) s =
      match res.json with
      | .ok a => f a s
      | .error e => (.error e, s) := by
  show Prog.andThen (Prog.eval res.json) f s = _
  simp only [Prog.andThen, Prog.eval]
  cases res.json <;> rfl

theorem update_bind {β : Type} (g : AppState → AppState) (f : Unit → Prog β) (s : Sys) :
    (Prog.update g >>= f) s =
      f () { s with posted := g s.posted, posts := s.posts ++ [g s.posted] } := rfl

theorem delay_bind {β : Type} (env : Env) (ms : Nat) (f : Unit → Prog β) (s : Sys) :
    (Prog.delay env ms >>= f) s = f () (Sys.render env { s with delays := s.delays ++ [ms] }) :=
  rfl

end Prog

/-- What the setter calls of `fetchData` add up to, the requests it issues
and the renders made while it waits, request by request. -/
theorem fetchData_course (env : Env) (s : AppState) :
    (invoke (fetchData env) s).posted
        = { storeAll env [0, 1, 2, 3, 4, 5] { s with loading := true } with loading := false }
      ∧ (invoke (fetchData env) s).requests = issued env [0, 1, 2, 3, 4, 5]
      ∧ (invoke (fetchData env) s).frames.map (fun f => (f.state, f.ok))
          = (framesOf env [0, 1, 2, 3, 4, 5] { s with loading := true }).map
              fun u => (u, renders env u) := by
  simp only [invoke, fetchData, Prog.fetch_bind, Prog.json_bind, Prog.eval_bind,
    Prog.update_bind, Prog.tryCatchFinally, Prog.update, setLoading, setDashboard,
    setFrameworks, setSystemHealth, setResearchers, setProjects, setSimulations, Sys.start,
    Sys.render, Prog.consoleError, storeAll, issued, framesOf, fetchValue, fetchUrl, setSlot,
    sliceName, List.length_nil, List.length_append, List.length_cons, List.nil_append,
    Nat.zero_add, Nat.reduceAdd, Nat.reduceLT, if_true, if_false]
  rcases h0 : env.respond 0 (.get (API_BASE ++ utf16 "/analytics/dashboard/enhanced")) with e | r0
  · exact ⟨rfl, rfl, rfl⟩
  rcases j0 : r0.json with e | d0
  · simp [j0]
  simp only [j0]
  rcases h1 : env.respond 1 (.get (API_BASE ++ utf16 "/analytics/frameworks")) with e | r1
  · exact ⟨rfl, rfl, rfl⟩
  rcases j1 : r1.json with e | d1
  · simp [j1]
  simp only [j1]
  rcases h2 : env.respond 2 (.get (API_BASE ++ utf16 "/health")) with e | r2
  · exact ⟨rfl, rfl, rfl⟩
  rcases j2 : r2.json with e | d2
  · simp [j2]
  simp only [j2]
  rcases h3 : env.respond 3 (.get (API_BASE ++ utf16 "/researchers")) with e | r3
  · exact ⟨rfl, rfl, rfl⟩
  rcases j3 : r3.json with e | d3
  · simp [j3]
  simp only [j3]
  rcases p3 : JsVal.sliceTo "resData" 10 d3 with e | v3
  · exact ⟨rfl, rfl, rfl⟩
  simp only []
  rcases h4 : env.respond 4 (.get (API_BASE ++ utf16 "/projects")) with e | r4
  · exact ⟨rfl, rfl, rfl⟩
  rcases j4 : r4.json with e | d4
  · simp [j4]
  simp only [j4]
  rcases p4 : JsVal.sliceTo "projData" 10 d4 with e | v4
  · exact ⟨rfl, rfl, rfl⟩
  simp only []
  rcases h5 : env.respond 5 (.get (API_BASE ++ utf16 "/simulations")) with e | r5
  · exact ⟨rfl, rfl, rfl⟩
  rcases j5 : r5.json with e | d5
  · simp [j5]
  simp only [j5]
  rcases p5 : JsVal.sliceTo "simData" 10 d5 with e | v5
  · exact ⟨rfl, rfl, rfl⟩
  simp only []
  first | exact ⟨rfl, rfl, rfl⟩ | simp

theorem firstBad_cases (env : Env) (P : AppState → Prop) (us : List AppState) (c : AppState)
    (hc : P c) (hu : ∀ u ∈ us, P u) : P ((firstBad env us).getD c) := by
  cases h : firstBad env us with
  | none => exact hc
  | some u => exact hu u (List.mem_of_find?_eq_some h)

/-- The state `fetchData` leaves: the state of the first render that threw,
if any, and otherwise what the setter calls add up to. -/
theorem fetchData_state (env : Env) (s : AppState) :
    (invoke (fetchData env) s).state
        = (firstBad env (framesOf env [0, 1, 2, 3, 4, 5] { s with loading := true })).getD
            { storeAll env [0, 1, 2, 3, 4, 5] { s with loading := true } with loading := false }
      ∧ ((invoke (fetchData env) s).mounted = true
          ↔ firstBad env (framesOf env [0, 1, 2, 3, 4, 5] { s with loading := true })
              = none) := by
  obtain ⟨hp, _, hf⟩ := fetchData_course env s
  have h := Sys.state_eq env _ _ hf
  rw [hp] at h
  exact h

theorem take_min_eq {α : Type} (l : List α) : l.take (min 10 l.length) = l.take 10 := by
  rcases le_total 10 l.length with h | h
  · rw [min_eq_left h]
  · rw [min_eq_right h, List.take_length, List.take_of_length_le h]

/-- C1, amended: when all six requests of `fetchData` succeed (each `fetch`
resolves and its body parses), the last three bodies are arrays, and the
component is still mounted when the invocation completes (no render made
while it was waiting threw), the dashboard, frameworks and systemHealth
slots hold exactly the first three parsed bodies, and the researchers,
projects and simulations slots hold the first `min 10 length` elements of
their arrays in the response's order: an array of at most ten elements is
stored unchanged and no stored array is longer than ten. -/
theorem fetchData_success_slots (env : Env) (s : AppState) (body : Nat → JsVal)
    (res proj sim : List JsVal)
    (hok : ∀ k, k < 6 →
      ∃ r : Response, env.respond k (.get (fetchUrl k)) = .ok r ∧ r.json = .ok (body k))
    (hres : body 3 = .arr res) (hproj : body 4 = .arr proj) (hsim : body 5 = .arr sim)
    (hm : (invoke (fetchData env) s).mounted = true) :
    let t := (invoke (fetchData env) s).state
    t.dashboard = body 0 ∧ t.frameworks = body 1 ∧ t.systemHealth = body 2
      ∧ t.researchers = .arr (res.take (min 10 res.length))
      ∧ t.projects = .arr (proj.take (min 10 proj.length))
      ∧ t.simulations = .arr (sim.take (min 10 sim.length))
      ∧ (res.length ≤ 10 → t.researchers = .arr res)
      ∧ (proj.length ≤ 10 → t.projects = .arr proj)
      ∧ (sim.length ≤ 10 → t.simulations = .arr sim)
      ∧ (res.take (min 10 res.length)).length ≤ 10
      ∧ (proj.take (min 10 proj.length)).length ≤ 10
      ∧ (sim.take (min 10 sim.length)).length ≤ 10 := by
  obtain ⟨r0, h0, j0⟩ := hok 0 (by decide)
  obtain ⟨r1, h1, j1⟩ := hok 1 (by decide)
  obtain ⟨r2, h2, j2⟩ := hok 2 (by decide)
  obtain ⟨r3, h3, j3⟩ := hok 3 (by decide)
  obtain ⟨r4, h4, j4⟩ := hok 4 (by decide)
  obtain ⟨r5, h5, j5⟩ := hok 5 (by decide)
  have v0 : fetchValue env 0 = .ok (body 0) := by simp [fetchValue, h0, j0]
  have v1 : fetchValue env 1 = .ok (body 1) := by simp [fetchValue, h1, j1]
  have v2 : fetchValue env 2 = .ok (body 2) := by simp [fetchValue, h2, j2]
  have v3 : fetchValue env 3 = .ok (.arr (res.take 10)) := by
    simp [fetchValue, h3, j3, hres, JsVal.sliceTo]
  have v4 : fetchValue env 4 = .ok (.arr (proj.take 10)) := by
    simp [fetchValue, h4, j4, hproj, JsVal.sliceTo]
  have v5 : fetchValue env 5 = .ok (.arr (sim.take 10)) := by
    simp [fetchValue, h5, j5, hsim, JsVal.sliceTo]
  have hs := (fetchData_course env s).1
  rw [← (Sys.state_of_mounted _ hm).1] at hs
  simp only [storeAll, v0, v1, v2, v3, v4, v5, setSlot] at hs
  simp only [hs, take_min_eq]
  refine ⟨trivial, trivial, trivial, trivial, trivial, trivial, ?_, ?_, ?_, ?_, ?_, ?_⟩
  · intro h; rw [List.take_of_length_le h]
  · intro h; rw [List.take_of_length_le h]
  · intro h; rw [List.take_of_length_le h]
  · simp
  · simp
  · simp

/-- An ordinary load: a dashboard snapshot, one framework, a health record
and three lists, the researchers list holding twelve records. -/
theorem fetchData_success_slots_witness :
    (invoke (fetchData sampleEnv) AppState.initial).state.researchers
      = .arr ((List.range 10).map sampleResearcher) :=
  (fetchData_success_slots sampleEnv AppState.initial sampleBody
    ((List.range 12).map sampleResearcher) [] []
    (fun k hk => ⟨_, rfl, by interval_cases k <;> rfl⟩) rfl rfl rfl (by decide!)).2.2.2.1

/-- C1 as stated fails: all six requests succeed and the last three bodies are
arrays, but the frameworks endpoint answers with an object. Once the
dashboard is stored the overview is drawn; with the object stored as
`frameworks`, the render made while `fetchData` waits for the health
response throws at `frameworks.map` and unmounts `App`: the later setter
calls are dropped, so `systemHealth` and `projects` keep their old values
and never hold their bodies. -/
theorem fetchData_success_unmounted :
    fetchValue brokenFrameworksEnv 0 = .ok (.obj [])
      ∧ fetchValue brokenFrameworksEnv 1 = .ok errorBody
      ∧ fetchValue brokenFrameworksEnv 2 = .ok (.obj [(utf16 "status", .str (utf16 "ok"))])
      ∧ fetchValue brokenFrameworksEnv 3 = .ok (.arr [])
      ∧ fetchValue brokenFrameworksEnv 4 = .ok (.arr [.str (utf16 "p")])
      ∧ fetchValue brokenFrameworksEnv 5 = .ok (.arr [])
      ∧ (invoke (fetchData brokenFrameworksEnv) AppState.initial).mounted = false
      ∧ (invoke (fetchData brokenFrameworksEnv) AppState.initial).state.frameworks = errorBody
      ∧ (invoke (fetchData brokenFrameworksEnv) AppState.initial).state.systemHealth = .null
      ∧ (invoke (fetchData brokenFrameworksEnv) AppState.initial).state.projects = .arr []
      ∧ (invoke (fetchData brokenFrameworksEnv) AppState.initial).state.loading = true
      ∧ (invoke (fetchData brokenFrameworksEnv) AppState.initial).requests.length = 6 :=
  ⟨rfl, rfl, rfl, rfl, rfl, rfl, rfl, rfl, rfl, rfl, rfl, rfl⟩

/-- C2, amended: a request of `fetchData` succeeds when its handling yields a
value for its slot and fails when it throws (`fetchValue`). If the requests
before the one numbered `n` (counting from 0, so `N = n + 1`) succeed and
that one fails, exactly the first `n + 1` requests are issued and the slots
from `n` on keep their values from before the invocation; and if the
component is still mounted when the invocation completes (no render made
while it was waiting threw), the slots before `n` hold the newly fetched
values. Whatever the outcomes, `loading` is false once the invocation
completes on a component that is still mounted. -/
theorem fetchData_partial_failure (env : Env) (s : AppState) :
    ((invoke (fetchData env) s).mounted = true →
        (invoke (fetchData env) s).state.loading = false)
      ∧ ∀ (n : Nat) (val : Nat → JsVal) (e : JsError), n < 6 →
        (∀ k, k < n → fetchValue env k = .ok (val k)) → fetchValue env n = .error e →
        (invoke (fetchData env) s).requests
            = (List.range (n + 1)).map (fun k => Request.get (fetchUrl k))
          ∧ (∀ k, n ≤ k → slot k (invoke (fetchData env) s).state = slot k s)
          ∧ ((invoke (fetchData env) s).mounted = true →
              ∀ k, k < n → slot k (invoke (fetchData env) s).state = val k) := by
  obtain ⟨_, hr, _⟩ := fetchData_course env s
  obtain ⟨hs, hmo⟩ := fetchData_state env s
  refine ⟨fun hm => by rw [hs, hmo.mp hm]; rfl, ?_⟩
  intro n val e hn hok hfail
  interval_cases n
  · -- the request numbered 0 fails
    simp only [storeAll, issued, framesOf, hfail, setSlot] at hs hr hmo ⊢
    refine ⟨by rw [hr]; decide, ?_, ?_⟩
    · intro k hk
      rw [hs]
      apply firstBad_cases env (fun u => slot k u = slot k s)
      · match k, hk with
        | 0, _ | 1, _ | 2, _ | 3, _ | 4, _ | 5, _ => rfl
        | k + 6, _ => rfl
      · intro u hu
        simp only [List.mem_cons, List.mem_singleton, List.not_mem_nil, or_false] at hu
        rcases hu with rfl
        match k, hk with
        | 0, _ | 1, _ | 2, _ | 3, _ | 4, _ | 5, _ => rfl
        | k + 6, _ => rfl
    · intro hm
      rw [hs, hmo.mp hm]
      intro k hk; omega
  · -- the request numbered 1 fails
    have v0 := hok 0 (by decide)
    simp only [storeAll, issued, framesOf, hfail, v0, setSlot] at hs hr hmo ⊢
    refine ⟨by rw [hr]; decide, ?_, ?_⟩
    · intro k hk
      rw [hs]
      apply firstBad_cases env (fun u => slot k u = slot k s)
      · match k, hk with
        | 1, _ | 2, _ | 3, _ | 4, _ | 5, _ => rfl
        | k + 6, _ => rfl
      · intro u hu
        simp only [List.mem_cons, List.mem_singleton, List.not_mem_nil, or_false] at hu
        rcases hu with rfl | rfl <;>
          match k, hk with
          | 1, _ | 2, _ | 3, _ | 4, _ | 5, _ => rfl
          | k + 6, _ => rfl
    · intro hm
      rw [hs, hmo.mp hm]
      intro k hk; interval_cases k; rfl
  · -- the request numbered 2 fails
    have v0 := hok 0 (by decide)
    have v1 := hok 1 (by decide)
    simp only [storeAll, issued, framesOf, hfail, v0, v1, setSlot] at hs hr hmo ⊢
    refine ⟨by rw [hr]; decide, ?_, ?_⟩
    · intro k hk
      rw [hs]
      apply firstBad_cases env (fun u => slot k u = slot k s)
      · match k, hk with
        | 2, _ | 3, _ | 4, _ | 5, _ => rfl
        | k + 6, _ => rfl
      · intro u hu
        simp only [List.mem_cons, List.mem_singleton, List.not_mem_nil, or_false] at hu
        rcases hu with rfl | rfl | rfl <;>
          match k, hk with
          | 2, _ | 3, _ | 4, _ | 5, _ => rfl
          | k + 6, _ => rfl
    · intro hm
      rw [hs, hmo.mp hm]
      intro k hk; interval_cases k <;> rfl
  · -- the request numbered 3 fails
    have v0 := hok 0 (by decide)
    have v1 := hok 1 (by decide)
    have v2 := hok 2 (by decide)
    simp only [storeAll, issued, framesOf, hfail, v0, v1, v2, setSlot] at hs hr hmo ⊢
    refine ⟨by rw [hr]; decide, ?_, ?_⟩
    · intro k hk
      rw [hs]
      apply firstBad_cases env (fun u => slot k u = slot k s)
      · match k, hk with
        | 3, _ | 4, _ | 5, _ => rfl
        | k + 6, _ => rfl
      · intro u hu
        simp only [List.mem_cons, List.mem_singleton, List.not_mem_nil, or_false] at hu
        rcases hu with rfl | rfl | rfl | rfl <;>
          match k, hk with
          | 3, _ | 4, _ | 5, _ => rfl
          | k + 6, _ => rfl
    · intro hm
      rw [hs, hmo.mp hm]
      intro k hk; interval_cases k <;> rfl
  · -- the request numbered 4 fails
    have v0 := hok 0 (by decide)
    have v1 := hok 1 (by decide)
    have v2 := hok 2 (by decide)
    have v3 := hok 3 (by decide)
    simp only [storeAll, issued, framesOf, hfail, v0, v1, v2, v3, setSlot] at hs hr hmo ⊢
    refine ⟨by rw [hr]; decide, ?_, ?_⟩
    · intro k hk
      rw [hs]
      apply firstBad_cases env (fun u => slot k u = slot k s)
      · match k, hk with
        | 4, _ | 5, _ => rfl
        | k + 6, _ => rfl
      · intro u hu
        simp only [List.mem_cons, List.mem_singleton, List.not_mem_nil, or_false] at hu
        rcases hu with rfl | rfl | rfl | rfl | rfl <;>
          match k, hk with
          | 4, _ | 5, _ => rfl
          | k + 6, _ => rfl
    · intro hm
      rw [hs, hmo.mp hm]
      intro k hk; interval_cases k <;> rfl
  · -- the request numbered 5 fails
    have v0 := hok 0 (by decide)
    have v1 := hok 1 (by decide)
    have v2 := hok 2 (by decide)
    have v3 := hok 3 (by decide)
    have v4 := hok 4 (by decide)
    simp only [storeAll, issued, framesOf, hfail, v0, v1, v2, v3, v4, setSlot] at hs hr hmo ⊢
    refine ⟨by rw [hr]; decide, ?_, ?_⟩
    · intro k hk
      rw [hs]
      apply firstBad_cases env (fun u => slot k u = slot k s)
      · match k, hk with
        | 5, _ => rfl
        | k + 6, _ => rfl
      · intro u hu
        simp only [List.mem_cons, List.mem_singleton, List.not_mem_nil, or_false] at hu
        rcases hu with rfl | rfl | rfl | rfl | rfl | rfl <;>
          match k, hk with
          | 5, _ => rfl
          | k + 6, _ => rfl
    · intro hm
      rw [hs, hmo.mp hm]
      intro k hk; interval_cases k <;> rfl

/-- The fourth request answers with an object, which cannot be sliced: the
component stays on its loading screen, the researchers slot keeps its
initial value and `loading` ends false. -/
theorem fetchData_partial_failure_witness :
    slot 3 (invoke (fetchData unsliceableEnv) AppState.initial).state
        = slot 3 AppState.initial
      ∧ (invoke (fetchData unsliceableEnv) AppState.initial).state.loading
        = false :=
  ⟨((fetchData_partial_failure unsliceableEnv AppState.initial).2 3
      (fun _ => .str []) (typeError "resData.slice is not a function") (by decide)
      (fun k hk => by interval_cases k <;> rfl) rfl).2.1 3 (le_refl 3),
    (fetchData_partial_failure unsliceableEnv AppState.initial).1 (by decide!)⟩

/-- C2 as stated fails: the first three requests succeed and the fourth is
rejected, but the frameworks endpoint answered with an error object. With
the dashboard stored the overview is drawn, the render made while
`fetchData` waits for the health response throws at `frameworks.map`, and
`App` unmounts: the health body is never stored although its request
succeeded, and `loading` is still true when the invocation completes. -/
theorem fetchData_failure_unmounted :
    fetchValue brokenHealthEnv 0 = .ok (.obj [])
      ∧ fetchValue brokenHealthEnv 1 = .ok errorBody
      ∧ fetchValue brokenHealthEnv 2 = .ok (.obj [(utf16 "status", .str (utf16 "ok"))])
      ∧ fetchValue brokenHealthEnv 3 = .error networkError
      ∧ (invoke (fetchData brokenHealthEnv) AppState.initial).mounted = false
      ∧ (slot 2 (invoke (fetchData brokenHealthEnv) AppState.initial).state).isNullish = true
      ∧ (invoke (fetchData brokenHealthEnv) AppState.initial).state.loading = true
      ∧ (invoke (fetchData brokenHealthEnv) AppState.initial).requests.length = 4 :=
  ⟨rfl, rfl, rfl, rfl, rfl, rfl, rfl, rfl⟩

theorem framesOf_loading (env : Env) (ks : List Nat) (t u : AppState)
    (hu : u ∈ framesOf env ks t) : u.loading = t.loading := by
  induction ks generalizing t with
  | nil => simp [framesOf] at hu
  | cons k ks ih =>
    simp only [framesOf, List.mem_cons] at hu
    rcases hu with rfl | hu
    · rfl
    · cases hv : fetchValue env k with
      | error e => simp [hv] at hu
      | ok v =>
        rw [hv] at hu
        have := ih _ hu
        rw [this]
        match k with
        | 0 | 1 | 2 | 3 | 4 => rfl
        | k + 5 => rfl

/-- C9: running `fetchData` twice in succession against the same outcomes (in
particular six successes with fixed bodies) leaves, after the second
invocation, the same state as after the first: the same contents in all six
slots and the same `loading` flag. -/
theorem fetchData_twice (env : Env) (s : AppState) :
    (invoke (fetchData env) (invoke (fetchData env) s).state).state
        = (invoke (fetchData env) s).state
      ∧ (∀ k, slot k (invoke (fetchData env) (invoke (fetchData env) s).state).state
          = slot k (invoke (fetchData env) s).state)
      ∧ (invoke (fetchData env) (invoke (fetchData env) s).state).state.loading
          = (invoke (fetchData env) s).state.loading := by
  have key : (invoke (fetchData env) (invoke (fetchData env) s).state).state
      = (invoke (fetchData env) s).state := by
    rw [(fetchData_state env _).1, (fetchData_state env s).1]
    cases hb : firstBad env (framesOf env [0, 1, 2, 3, 4, 5] { s with loading := true }) with
    | some u =>
      simp only [Option.getD_some]
      have hb' := hb
      unfold firstBad at hb'
      have hbad := List.find?_some hb'
      have hl : u.loading = true :=
        framesOf_loading env _ _ u (List.mem_of_find?_eq_some hb')
      have hu : ({ u with loading := true } : AppState) = u := by
        cases u
        simp_all
      rw [hu]
      simp only [Bool.not_eq_true', Bool.not_eq_eq_eq_not, Bool.not_true] at hbad
      simp [framesOf, firstBad, List.find?, hbad]
    | none =>
      simp only [Option.getD_none, firstBad, List.find?_eq_none] at hb ⊢
      simp only [storeAll, framesOf] at hb ⊢
      rcases v0 : fetchValue env 0 with e | d0
      · simp only [v0] at hb ⊢
        simp [firstBad, setSlot, v0, storeAll, framesOf] at hb ⊢
        simp [hb]
      simp only [v0] at hb ⊢
      rcases v1 : fetchValue env 1 with e | d1
      · simp only [v1] at hb ⊢
        simp [firstBad, setSlot, v0, v1, storeAll, framesOf] at hb ⊢
        simp [hb]
      simp only [v1] at hb ⊢
      rcases v2 : fetchValue env 2 with e | d2
      · simp only [v2] at hb ⊢
        simp [firstBad, setSlot, v0, v1, v2, storeAll, framesOf] at hb ⊢
        simp [hb]
      simp only [v2] at hb ⊢
      rcases v3 : fetchValue env 3 with e | d3
      · simp only [v3] at hb ⊢
        simp [firstBad, setSlot, v0, v1, v2, v3, storeAll, framesOf] at hb ⊢
        simp [hb]
      simp only [v3] at hb ⊢
      rcases v4 : fetchValue env 4 with e | d4
      · simp only [v4] at hb ⊢
        simp [firstBad, setSlot, v0, v1, v2, v3, v4, storeAll, framesOf] at hb ⊢
        simp [hb]
      simp only [v4] at hb ⊢
      rcases v5 : fetchValue env 5 with e | d5
      · simp only [v5] at hb ⊢
        simp [firstBad, setSlot, v0, v1, v2, v3, v4, v5, storeAll, framesOf] at hb ⊢
        simp [hb]
      simp only [v5] at hb ⊢
      have hlast : ∀ v : JsVal,
          renders env (setSlot 5 v (setSlot 4 d4 (setSlot 3 d3 (setSlot 2 d2 (setSlot 1 d1
            (setSlot 0 d0 { s with loading := true }))))))
          = renders env (setSlot 4 d4 (setSlot 3 d3 (setSlot 2 d2 (setSlot 1 d1
            (setSlot 0 d0 { s with loading := true }))))) := fun _ => rfl
      simp [firstBad, setSlot, v0, v1, v2, v3, v4, v5, storeAll, framesOf] at hb hlast ⊢
      simp [hb, hlast]
  exact ⟨key, fun k => by rw [key], by rw [key]⟩

theorem Sys.always_state (P : AppState → List AppState → Prop) (s : Sys)
    (h : s.always P) : P s.state s.history :=
  Sys.state_cases P s h.1 h.2

theorem addResult_bind {β : Type} (env : Env) (message : JsString) (type : ResultType)
    (f : Unit → Prog β) (s : Sys) :
    (addResult env message type >>= f) s =
      f () { s with
        posted := { s.posted with triggerDemo := { s.posted.triggerDemo with
          results := s.posted.triggerDemo.results ++
            [{ message := message, type := type, time := env.entryTime s.stamps }] } }
        posts := s.posts ++ [{ s.posted with triggerDemo := { s.posted.triggerDemo with
          results := s.posted.triggerDemo.results ++
            [{ message := message, type := type, time := env.entryTime s.stamps }] } }]
        stamps := s.stamps + 1 } := rfl

/-- The course of a demo run whose first `GET` succeeds and whose `PUT` is
rejected: the requests, what the setter calls add up to, and what holds at
every render. -/
theorem demo_put_failure_course (env : Env) (s : AppState) (b stamp : JsVal)
    (text : JsString) (e : JsError)
    (h1 : getStep (env.respond 0 (.get researcherUrl)) = .ok (b, stamp, text))
    (h2 : env.respond 1 (putRequest env) = .error e) :
    (invoke (runTriggerDemo env (utf16 "researcher")) s).requests
        = [.get researcherUrl, putRequest env]
      ∧ (invoke (runTriggerDemo env (utf16 "researcher")) s).always
          (fun st hist => st.triggerDemo.after = .null
            ∧ (∀ t ∈ hist, t.triggerDemo.after = .null)
            ∧ logTypes st.triggerDemo.results <+: [.info, .success, .warning, .error])
      ∧ logTypes (invoke (runTriggerDemo env (utf16 "researcher")) s).posted.triggerDemo.results
          = [.info, .success, .warning, .error]
      ∧ (logMessages
          (invoke (runTriggerDemo env (utf16 "researcher")) s).posted.triggerDemo.results).getLast?
            = some (utf16 "❌ Error: " ++ e.message)
      ∧ (invoke (runTriggerDemo env (utf16 "researcher")) s).posted.triggerDemo.isRunning
          = false := by
  simp only [invoke, runTriggerDemo, if_pos, Prog.fetch_bind, Prog.json_bind, Prog.eval_bind,
    Prog.update_bind, Prog.delay_bind, addResult_bind, Prog.tryCatchFinally, Prog.update,
    setTriggerDemo, addResult, Sys.start, Sys.render, getStep, researcherUrl, List.length_nil,
    List.length_append, List.length_cons, List.nil_append, Nat.zero_add, Nat.reduceAdd] at h1 ⊢
  rcases h0 : env.respond 0 (.get (API_BASE ++ utf16 "/researchers/1")) with e0 | r0
  · simp [h0] at h1
  simp only [h0] at h1 ⊢
  rcases j0 : r0.json with e0 | d0
  · simp [j0] at h1
  simp only [j0] at h1 ⊢
  rcases u0 : d0.updatedAt with e0 | stamp0
  · simp [u0] at h1
  simp only [u0, Except.bind] at h1 ⊢
  rcases t0 : stamp0.render with e0 | text0
  · simp [t0] at h1
  simp only [t0, h2] at h1 ⊢
  simp [logTypes, logMessages, Sys.always]

/-- C7, amended: in a run of `runTriggerDemo('researcher')` whose first `GET`
succeeds and whose `PUT` is rejected, the second `GET` is never issued (the
requests are the first `GET` and the `PUT`), `after` is `null` in every state
of the run and at its end, and the log never holds more than the entries
info, success, warning, error in that order; and if the component is still
mounted when the run completes (no render made while it was waiting threw),
exactly one entry of type `error` was appended and it is the last one,
carrying the message of the rejection, and `isRunning` is false at the end. -/
theorem demo_put_failure (env : Env) (s : AppState) (b stamp : JsVal) (text : JsString)
    (e : JsError)
    (h1 : getStep (env.respond 0 (.get researcherUrl)) = .ok (b, stamp, text))
    (h2 : env.respond 1 (putRequest env) = .error e) :
    (invoke (runTriggerDemo env (utf16 "researcher")) s).requests
        = [.get researcherUrl, putRequest env]
      ∧ (invoke (runTriggerDemo env (utf16 "researcher")) s).state.triggerDemo.after = .null
      ∧ (∀ t ∈ (invoke (runTriggerDemo env (utf16 "researcher")) s).history,
          t.triggerDemo.after = .null)
      ∧ logTypes (invoke (runTriggerDemo env (utf16 "researcher")) s).state.triggerDemo.results
          <+: [.info, .success, .warning, .error]
      ∧ ((invoke (runTriggerDemo env (utf16 "researcher")) s).mounted = true →
          logTypes (invoke (runTriggerDemo env (utf16 "researcher")) s).state.triggerDemo.results
              = [.info, .success, .warning, .error]
            ∧ (logTypes (invoke (runTriggerDemo env (utf16 "researcher"))
                s).state.triggerDemo.results).count .error = 1
            ∧ (logTypes (invoke (runTriggerDemo env (utf16 "researcher"))
                s).state.triggerDemo.results).getLast? = some .error
            ∧ (logMessages (invoke (runTriggerDemo env (utf16 "researcher"))
                s).state.triggerDemo.results).getLast? = some (utf16 "❌ Error: " ++ e.message)
            ∧ (invoke (runTriggerDemo env (utf16 "researcher")) s).state.triggerDemo.isRunning
                = false) := by
  obtain ⟨hreq, hall, htypes, hmsg, hrun⟩ := demo_put_failure_course env s b stamp text e h1 h2
  obtain ⟨hafter, hhist, hpre⟩ := Sys.always_state _ _ hall
  refine ⟨hreq, hafter, hhist, hpre, ?_⟩
  intro hm
  rw [(Sys.state_of_mounted _ hm).1]
  refine ⟨htypes, ?_, ?_, hmsg, hrun⟩
  · rw [htypes]; decide
  · rw [htypes]; rfl

/-- The first `GET` answers with a record and the `PUT` is rejected, on the
demo tab: the component stays mounted and the log ends with the error
entry. -/
theorem demo_put_failure_witness :
    logTypes (invoke (runTriggerDemo (putRejectedEnv (.str (utf16 "2024-01-01T00:00:00Z")))
        (utf16 "researcher")) demoReady).state.triggerDemo.results
      = [.info, .success, .warning, .error] :=
  ((demo_put_failure (putRejectedEnv (.str (utf16 "2024-01-01T00:00:00Z"))) demoReady
    (recordAt (.str (utf16 "2024-01-01T00:00:00Z"))) (.str (utf16 "2024-01-01T00:00:00Z"))
    (utf16 "2024-01-01T00:00:00Z") networkError rfl rfl).2.2.2.2 (by decide!)).1

/-- C7 as stated fails: on the demo tab, when the first `GET` answers with a
record whose `updated_at` is an object and the `PUT` is rejected, the render
made during the first pacing delay throws on the object (App.js 288) and
unmounts the component: the error entry is never appended (the log stays at
info, success) and `isRunning` stays true. -/
theorem demo_put_failure_unmounted :
    getStep ((putRejectedEnv (.obj [])).respond 0 (.get researcherUrl))
        = .ok (recordAt (.obj []), .obj [], utf16 "[object Object]")
      ∧ (putRejectedEnv (.obj [])).respond 1 (putRequest (putRejectedEnv (.obj [])))
        = .error networkError
      ∧ (invoke (runTriggerDemo (putRejectedEnv (.obj [])) (utf16 "researcher"))
          demoReady).mounted = false
      ∧ logTypes (invoke (runTriggerDemo (putRejectedEnv (.obj [])) (utf16 "researcher"))
          demoReady).state.triggerDemo.results = [.info, .success]
      ∧ (logTypes (invoke (runTriggerDemo (putRejectedEnv (.obj [])) (utf16 "researcher"))
          demoReady).state.triggerDemo.results).count .error = 0
      ∧ (invoke (runTriggerDemo (putRejectedEnv (.obj [])) (utf16 "researcher"))
          demoReady).state.triggerDemo.isRunning = true :=
  ⟨rfl, rfl, by decide!, by decide!, by decide!, by decide!⟩

theorem strictNe_primitive (x y : JsVal) (hx : x.isPrimitive = true)
    (hy : y.isPrimitive = true) : x.strictNe y = true ↔ x ≠ y := by
  cases x <;> cases y <;> simp [JsVal.strictNe, JsVal.isPrimitive] at hx hy ⊢

theorem strictNe_reference (x y : JsVal)
    (h : x.isPrimitive = false ∨ y.isPrimitive = false) : x.strictNe y = true := by
  cases x <;> cases y <;> simp [JsVal.strictNe, JsVal.isPrimitive] at h ⊢

theorem getStep_ok (o : Except JsError Response) (b stamp : JsVal) (text : JsString)
    (h : getStep o = .ok (b, stamp, text)) :
    b.updatedAt = .ok stamp ∧ stamp.render = .ok text := by
  rcases o with e | res
  · simp [getStep] at h
  simp only [getStep] at h
  rcases j : res.json with e | d
  · simp [j] at h
  simp only [j] at h
  rcases u : d.updatedAt with e | st
  · simp [u] at h
  simp only [u] at h
  rcases t : st.render with e | tx
  · simp [t] at h
  simp only [t, Except.ok.injEq, Prod.mk.injEq] at h
  obtain ⟨rfl, rfl, rfl⟩ := h
  exact ⟨u, t⟩

/-- C6, amended: in a run of `runTriggerDemo('researcher')` in which both
`GET`s and the `PUT` succeed, with first body `b` and second body `a`, and
after which the component is still mounted (no render made while the run was
waiting threw), the stored `before` is `b` and the stored `after` is `a`, and
the last log entry has type `trigger` exactly when
`b.updated_at !== a.updated_at` holds, and type `warning` otherwise. The
strict comparison is inequality by value when both values are primitive
(strings, numbers, booleans, `null`, a missing field); two arrays or two
objects read from two parsed bodies are never identical, so for them `!==`
holds even when they are equal by value. -/
theorem demo_compare (env : Env) (s : AppState) (b bStamp a aStamp : JsVal)
    (bText aText : JsString) (r : Response)
    (h1 : getStep (env.respond 0 (.get researcherUrl)) = .ok (b, bStamp, bText))
    (h2 : env.respond 1 (putRequest env) = .ok r)
    (h3 : getStep (env.respond 2 (.get researcherUrl)) = .ok (a, aStamp, aText)) :
    b.updatedAt = .ok bStamp ∧ a.updatedAt = .ok aStamp
      ∧ (bStamp.isPrimitive = true → aStamp.isPrimitive = true →
          (bStamp.strictNe aStamp = true ↔ bStamp ≠ aStamp))
      ∧ (bStamp.isPrimitive = false ∨ aStamp.isPrimitive = false →
          bStamp.strictNe aStamp = true)
      ∧ ((invoke (runTriggerDemo env (utf16 "researcher")) s).mounted = true →
          (invoke (runTriggerDemo env (utf16 "researcher")) s).state.triggerDemo.before = b
            ∧ (invoke (runTriggerDemo env (utf16 "researcher")) s).state.triggerDemo.after = a
            ∧ ((logTypes (invoke (runTriggerDemo env (utf16 "researcher"))
                  s).state.triggerDemo.results).getLast? = some .trigger
                ↔ bStamp.strictNe aStamp = true)
            ∧ ((logTypes (invoke (runTriggerDemo env (utf16 "researcher"))
                  s).state.triggerDemo.results).getLast? = some .warning
                ↔ bStamp.strictNe aStamp = false)
            ∧ (logMessages (invoke (runTriggerDemo env (utf16 "researcher"))
                  s).state.triggerDemo.results).getLast?
                = some (if bStamp.strictNe aStamp = true
                    then utf16 "🎉 TRIGGER WORKED! Timestamp automatically updated!"
                    else utf16 "⚠️ Timestamps are the same")) := by
  refine ⟨(getStep_ok _ _ _ _ h1).1, (getStep_ok _ _ _ _ h3).1, strictNe_primitive _ _,
    strictNe_reference _ _, ?_⟩
  intro hm
  rw [(Sys.state_of_mounted _ hm).1]
  clear hm
  simp only [invoke, runTriggerDemo, if_pos, Prog.fetch_bind, Prog.json_bind, Prog.eval_bind,
    Prog.update_bind, Prog.delay_bind, addResult_bind, Prog.tryCatchFinally, Prog.update,
    setTriggerDemo, addResult, Sys.start, Sys.render, getStep, researcherUrl, List.length_nil,
    List.length_append, List.length_cons, List.nil_append, Nat.zero_add, Nat.reduceAdd]
    at h1 h3 ⊢
  rcases h0 : env.respond 0 (.get (API_BASE ++ utf16 "/researchers/1")) with e0 | r0
  · simp [h0] at h1
  simp only [h0] at h1 ⊢
  rcases j0 : r0.json with e0 | d0
  · simp [j0] at h1
  simp only [j0] at h1 ⊢
  rcases u0 : d0.updatedAt with e0 | stamp0
  · simp [u0] at h1
  simp only [u0, Except.bind] at h1 ⊢
  rcases t0 : stamp0.render with e0 | text0
  · simp [t0] at h1
  simp only [t0, h2] at h1 ⊢
  rcases h4 : env.respond 2 (.get (API_BASE ++ utf16 "/researchers/1")) with e0 | r2
  · simp [h4] at h3
  simp only [h4] at h3 ⊢
  rcases j2 : r2.json with e0 | d2
  · simp [j2] at h3
  simp only [j2] at h3 ⊢
  rcases u2 : d2.updatedAt with e0 | stamp2
  · simp [u2] at h3
  simp only [u2, Except.bind] at h3 ⊢
  rcases t2 : stamp2.render with e0 | text2
  · simp [t2] at h3
  simp only [t2] at h3 ⊢
  simp only [Except.ok.injEq, Prod.mk.injEq] at h1 h3
  obtain ⟨rfl, rfl, rfl⟩ := h1
  obtain ⟨rfl, rfl, rfl⟩ := h3
  refine ⟨?_, ?_, ?_, ?_, ?_⟩ <;>
    by_cases hne : stamp0.strictNe stamp2 = true <;>
    simp [hne, addResult, setTriggerDemo, Prog.update, logTypes, logMessages]

/-- The two scenarios of the specification, on the demo tab: `updated_at`
moving from `2024-01-01T00:00:00Z` to `2024-01-01T00:05:00Z` ends with the
trigger entry, and an unchanged `updated_at` ends with the warning entry. -/
theorem demo_compare_witness :
    (logTypes (invoke (runTriggerDemo
        (stampedEnv (.str (utf16 "2024-01-01T00:00:00Z")) (.str (utf16 "2024-01-01T00:05:00Z")))
        (utf16 "researcher")) demoReady).state.triggerDemo.results).getLast? = some .trigger
      ∧ (logTypes (invoke (runTriggerDemo
        (stampedEnv (.str (utf16 "2024-01-01T00:00:00Z")) (.str (utf16 "2024-01-01T00:00:00Z")))
        (utf16 "researcher")) demoReady).state.triggerDemo.results).getLast? = some .warning :=
  ⟨((demo_compare
      (stampedEnv (.str (utf16 "2024-01-01T00:00:00Z")) (.str (utf16 "2024-01-01T00:05:00Z")))
      demoReady (recordAt (.str (utf16 "2024-01-01T00:00:00Z")))
      (.str (utf16 "2024-01-01T00:00:00Z")) (recordAt (.str (utf16 "2024-01-01T00:05:00Z")))
      (.str (utf16 "2024-01-01T00:05:00Z")) (utf16 "2024-01-01T00:00:00Z")
      (utf16 "2024-01-01T00:05:00Z") ⟨200, .ok (.obj [])⟩ rfl rfl rfl).2.2.2.2
        (by decide!)).2.2.1.mpr rfl,
    ((demo_compare
      (stampedEnv (.str (utf16 "2024-01-01T00:00:00Z")) (.str (utf16 "2024-01-01T00:00:00Z")))
      demoReady (recordAt (.str (utf16 "2024-01-01T00:00:00Z")))
      (.str (utf16 "2024-01-01T00:00:00Z")) (recordAt (.str (utf16 "2024-01-01T00:00:00Z")))
      (.str (utf16 "2024-01-01T00:00:00Z")) (utf16 "2024-01-01T00:00:00Z")
      (utf16 "2024-01-01T00:00:00Z") ⟨200, .ok (.obj [])⟩ rfl rfl rfl).2.2.2.2
        (by decide!)).2.2.2.1.mpr rfl⟩

/-- C6 as stated fails, in two ways. When both bodies carry `updated_at: []`,
the two values are equal, yet `[] !== []` holds of two separately parsed
arrays and the run ends with the trigger entry. And when both bodies carry
`updated_at: {}`, on the demo tab, the render made during the first pacing
delay throws on the object (App.js 288) and unmounts the component: `after`
is never stored and the log ends with neither entry. -/
theorem demo_compare_equal_stamps :
    (recordAt (.arr [])).updatedAt = .ok (.arr [])
      ∧ (invoke (runTriggerDemo (stampedEnv (.arr []) (.arr [])) (utf16 "researcher"))
          demoReady).mounted = true
      ∧ (invoke (runTriggerDemo (stampedEnv (.arr []) (.arr [])) (utf16 "researcher"))
          demoReady).state.triggerDemo.before = recordAt (.arr [])
      ∧ (invoke (runTriggerDemo (stampedEnv (.arr []) (.arr [])) (utf16 "researcher"))
          demoReady).state.triggerDemo.after = recordAt (.arr [])
      ∧ logTypes (invoke (runTriggerDemo (stampedEnv (.arr []) (.arr [])) (utf16 "researcher"))
          demoReady).state.triggerDemo.results
          = [.info, .success, .warning, .info, .success, .trigger]
      ∧ (recordAt (.obj [])).updatedAt = .ok (.obj [])
      ∧ (invoke (runTriggerDemo (stampedEnv (.obj []) (.obj [])) (utf16 "researcher"))
          demoReady).mounted = false
      ∧ (invoke (runTriggerDemo (stampedEnv (.obj []) (.obj [])) (utf16 "researcher"))
          demoReady).state.triggerDemo.after.isNullish = true
      ∧ logTypes (invoke (runTriggerDemo (stampedEnv (.obj []) (.obj [])) (utf16 "researcher"))
          demoReady).state.triggerDemo.results = [.info, .success] := by
  have hm : (invoke (runTriggerDemo (stampedEnv (.arr []) (.arr [])) (utf16 "researcher"))
      demoReady).mounted = true := by decide!
  refine ⟨rfl, hm, ?_, ?_, by decide!, rfl, by decide!, by decide!, by decide!⟩
  · rw [(Sys.state_of_mounted _ hm).1]; rfl
  · rw [(Sys.state_of_mounted _ hm).1]; rfl

/-- The course of a demo run, by the first request to fail: the requests,
what holds of the log at every render and of what the setter calls add up
to. -/
theorem demo_first_failure_course (env : Env) (s : AppState) :
    let r := invoke (runTriggerDemo env (utf16 "researcher")) s
    let log := r.posted.triggerDemo.results
    r.posted.triggerDemo.isRunning = false
      ∧ match getStep (env.respond 0 (.get researcherUrl)) with
        | .error e =>
          r.requests = [.get researcherUrl]
            ∧ r.always (fun st _ => logTypes st.triggerDemo.results <+: [.info, .error])
            ∧ logTypes log = [.info, .error]
            ∧ (logMessages log).getLast? = some (utf16 "❌ Error: " ++ e.message)
        | .ok _ =>
          match env.respond 1 (putRequest env) with
          | .error e =>
            r.requests = [.get researcherUrl, putRequest env]
              ∧ r.always (fun st _ =>
                  logTypes st.triggerDemo.results <+: [.info, .success, .warning, .error])
              ∧ logTypes log = [.info, .success, .warning, .error]
              ∧ (logMessages log).getLast? = some (utf16 "❌ Error: " ++ e.message)
          | .ok _ =>
            match getStep (env.respond 2 (.get researcherUrl)) with
            | .error e =>
              r.requests = [.get researcherUrl, putRequest env, .get researcherUrl]
                ∧ r.always (fun st _ => logTypes st.triggerDemo.results
                    <+: [.info, .success, .warning, .info, .error])
                ∧ logTypes log = [.info, .success, .warning, .info, .error]
                ∧ (logMessages log).getLast? = some (utf16 "❌ Error: " ++ e.message)
            | .ok _ =>
              r.requests = [.get researcherUrl, putRequest env, .get researcherUrl]
                ∧ r.always (fun st _ => (logTypes st.triggerDemo.results).count .error = 0) := by
  simp only [invoke, runTriggerDemo, if_pos, Prog.fetch_bind, Prog.json_bind, Prog.eval_bind,
    Prog.update_bind, Prog.delay_bind, addResult_bind, Prog.tryCatchFinally, Prog.update,
    setTriggerDemo, addResult, Sys.start, Sys.render, getStep, researcherUrl, List.length_nil,
    List.length_append, List.length_cons, List.nil_append, Nat.zero_add, Nat.reduceAdd]
  rcases h0 : env.respond 0 (.get (API_BASE ++ utf16 "/researchers/1")) with e0 | r0
  · simp [logTypes, logMessages, Sys.always]
  simp only []
  rcases j0 : r0.json with e0 | d0
  · simp [logTypes, logMessages, Sys.always]
  simp only []
  rcases u0 : d0.updatedAt with e0 | stamp0
  · simp [logTypes, logMessages, Sys.always, Except.bind]
  simp only [Except.bind]
  rcases t0 : stamp0.render with e0 | text0
  · simp [logTypes, logMessages, Sys.always]
  simp only []
  rcases h1 : env.respond 1 (putRequest env) with e0 | r1
  · simp [logTypes, logMessages, Sys.always]
  simp only []
  rcases h2 : env.respond 2 (.get (API_BASE ++ utf16 "/researchers/1")) with e0 | r2
  · simp [logTypes, logMessages, Sys.always]
  simp only []
  rcases j2 : r2.json with e0 | d2
  · simp [logTypes, logMessages, Sys.always]
  simp only []
  rcases u2 : d2.updatedAt with e0 | stamp2
  · simp [logTypes, logMessages, Sys.always, Except.bind]
  simp only [Except.bind]
  rcases t2 : stamp2.render with e0 | text2
  · simp [logTypes, logMessages, Sys.always]
  simp only []
  by_cases hne : stamp0.strictNe stamp2 = true <;>
    simp [hne, addResult, setTriggerDemo, Prog.update, logTypes, logMessages, Sys.always]

/-- C8, amended: in every run of `runTriggerDemo('researcher')`, whichever of
the three requests is the first to fail (the first `GET`, the `PUT`, or the
second `GET`), no later request is issued and no later step logs anything:
the requests end with the failed one, issued once, and the log never holds
more than the entries made up to that request followed by one entry of type
`error`. If the component is still mounted when the run completes (no render
made while it was waiting threw), the log ends with exactly that one entry of
type `error`, whose message carries the message of the failure, and
`isRunning` is false at the end, failed or not. When no request fails, the
log holds no entry of type `error`. -/
theorem demo_first_failure (env : Env) (s : AppState) :
    let r := invoke (runTriggerDemo env (utf16 "researcher")) s
    let log := r.state.triggerDemo.results
    (r.mounted = true → r.state.triggerDemo.isRunning = false)
      ∧ match getStep (env.respond 0 (.get researcherUrl)) with
        | .error e =>
          r.requests = [.get researcherUrl]
            ∧ logTypes log <+: [.info, .error]
            ∧ (r.mounted = true →
                logTypes log = [.info, .error]
                  ∧ (logMessages log).getLast? = some (utf16 "❌ Error: " ++ e.message))
        | .ok _ =>
          match env.respond 1 (putRequest env) with
          | .error e =>
            r.requests = [.get researcherUrl, putRequest env]
              ∧ logTypes log <+: [.info, .success, .warning, .error]
              ∧ (r.mounted = true →
                  logTypes log = [.info, .success, .warning, .error]
                    ∧ (logMessages log).getLast? = some (utf16 "❌ Error: " ++ e.message))
          | .ok _ =>
            match getStep (env.respond 2 (.get researcherUrl)) with
            | .error e =>
              r.requests = [.get researcherUrl, putRequest env, .get researcherUrl]
                ∧ logTypes log <+: [.info, .success, .warning, .info, .error]
                ∧ (r.mounted = true →
                    logTypes log = [.info, .success, .warning, .info, .error]
                      ∧ (logMessages log).getLast? = some (utf16 "❌ Error: " ++ e.message))
            | .ok _ =>
              r.requests = [.get researcherUrl, putRequest env, .get researcherUrl]
                ∧ (logTypes log).count .error = 0 := by
  have h := demo_first_failure_course env s
  simp only [] at h ⊢
  obtain ⟨hrun, hmatch⟩ := h
  refine ⟨fun hm => by rw [(Sys.state_of_mounted _ hm).1]; exact hrun, ?_⟩
  rcases g0 : getStep (env.respond 0 (.get researcherUrl)) with e | v0
  · simp only [g0] at hmatch ⊢
    obtain ⟨hreq, hall, htypes, hmsg⟩ := hmatch
    exact ⟨hreq, Sys.always_state _ _ hall,
      fun hm => by rw [(Sys.state_of_mounted _ hm).1]; exact ⟨htypes, hmsg⟩⟩
  simp only [g0] at hmatch ⊢
  rcases g1 : env.respond 1 (putRequest env) with e | v1
  · simp only [g1] at hmatch ⊢
    obtain ⟨hreq, hall, htypes, hmsg⟩ := hmatch
    exact ⟨hreq, Sys.always_state _ _ hall,
      fun hm => by rw [(Sys.state_of_mounted _ hm).1]; exact ⟨htypes, hmsg⟩⟩
  simp only [g1] at hmatch ⊢
  rcases g2 : getStep (env.respond 2 (.get researcherUrl)) with e | v2
  · simp only [g2] at hmatch ⊢
    obtain ⟨hreq, hall, htypes, hmsg⟩ := hmatch
    exact ⟨hreq, Sys.always_state _ _ hall,
      fun hm => by rw [(Sys.state_of_mounted _ hm).1]; exact ⟨htypes, hmsg⟩⟩
  simp only [g2] at hmatch ⊢
  exact ⟨hmatch.1, Sys.always_state _ _ hmatch.2⟩

/-- C8 as stated fails: on the demo tab, when the first `GET` answers with a
record whose `updated_at` is an object, the `PUT` succeeds and the second
`GET` is rejected, the render made during the first pacing delay throws on
the object (App.js 288) and unmounts the component: all three requests are
still issued, but no entry of type `error` is appended (the log stays at
info, success) and `isRunning` stays true. -/
theorem demo_first_failure_unmounted :
    (invoke (runTriggerDemo (secondGetRejectedEnv (.obj [])) (utf16 "researcher"))
        demoReady).requests
        = [.get researcherUrl, putRequest (secondGetRejectedEnv (.obj [])), .get researcherUrl]
      ∧ (invoke (runTriggerDemo (secondGetRejectedEnv (.obj [])) (utf16 "researcher"))
          demoReady).mounted = false
      ∧ logTypes (invoke (runTriggerDemo (secondGetRejectedEnv (.obj [])) (utf16 "researcher"))
          demoReady).state.triggerDemo.results = [.info, .success]
      ∧ (invoke (runTriggerDemo (secondGetRejectedEnv (.obj [])) (utf16 "researcher"))
          demoReady).state.triggerDemo.isRunning = true :=
  ⟨rfl, by decide!, by decide!, by decide!⟩

/-- The course of a demo run, whatever fails: the reset comes first, every
later state only appends to the log, and the last state produced is the
current one, both at every render and at the end. -/
theorem demo_log_growth_course (env : Env) (s : AppState) :
    (invoke (runTriggerDemo env (utf16 "researcher")) s).always (fun st hist =>
      hist.head? = some { s with
          triggerDemo := { before := .null, after := .null, isRunning := true, results := [] } }
        ∧ List.Chain' (fun x y : AppState => x.triggerDemo.results <+: y.triggerDemo.results)
            hist
        ∧ hist.getLast? = some st
        ∧ st.triggerDemo.results.length ≤ 6) := by
  simp only [invoke, runTriggerDemo, if_pos, Prog.fetch_bind, Prog.json_bind, Prog.eval_bind,
    Prog.update_bind, Prog.delay_bind, addResult_bind, Prog.tryCatchFinally, Prog.update,
    setTriggerDemo, addResult, Sys.start, Sys.render, getStep, researcherUrl, List.length_nil,
    List.length_append, List.length_cons, List.nil_append, Nat.zero_add, Nat.reduceAdd]
  rcases h0 : env.respond 0 (.get (API_BASE ++ utf16 "/researchers/1")) with e0 | r0
  · simp [Sys.always]
  simp only []
  rcases j0 : r0.json with e0 | d0
  · simp [Sys.always]
  simp only []
  rcases u0 : d0.updatedAt with e0 | stamp0
  · simp [Sys.always, Except.bind]
  simp only [Except.bind]
  rcases t0 : stamp0.render with e0 | text0
  · simp [Sys.always]
  simp only []
  rcases h1 : env.respond 1 (putRequest env) with e0 | r1
  · simp [Sys.always]
  simp only []
  rcases h2 : env.respond 2 (.get (API_BASE ++ utf16 "/researchers/1")) with e0 | r2
  · simp [Sys.always]
  simp only []
  rcases j2 : r2.json with e0 | d2
  · simp [Sys.always]
  simp only []
  rcases u2 : d2.updatedAt with e0 | stamp2
  · simp [Sys.always, Except.bind]
  simp only [Except.bind]
  rcases t2 : stamp2.render with e0 | text2
  · simp [Sys.always]
  simp only []
  by_cases hne : stamp0.strictNe stamp2 = true <;>
    simp [hne, addResult, setTriggerDemo, Prog.update, Sys.always]

/-- C10, amended: whatever the demo state was before, a run of
`runTriggerDemo('researcher')` first resets it to `before = null`,
`after = null`, `isRunning = true` and an empty log; from then on the log of
each state of the run begins with the log of the state before it, so every
later step only appends, and the log never holds more than six entries; and
when all three requests succeed and the component is still mounted when the
run completes (no render made while it was waiting threw), the final log has
exactly six entries, of types info, success, warning, info, success and then
trigger or warning, the second message ending with the text of the first
`GET`'s `updated_at` and the fifth with that of the second `GET`'s. -/
theorem demo_log_growth (env : Env) (s : AppState) :
    let r := invoke (runTriggerDemo env (utf16 "researcher")) s
    let log := r.state.triggerDemo.results
    r.history.head? = some { s with
        triggerDemo := { before := .null, after := .null, isRunning := true, results := [] } }
      ∧ List.Chain' (fun x y : AppState => x.triggerDemo.results <+: y.triggerDemo.results)
          r.history
      ∧ r.history.getLast? = some r.state
      ∧ log.length ≤ 6
      ∧ ∀ (b bStamp a aStamp : JsVal) (bText aText : JsString) (res : Response),
          getStep (env.respond 0 (.get researcherUrl)) = .ok (b, bStamp, bText) →
          env.respond 1 (putRequest env) = .ok res →
          getStep (env.respond 2 (.get researcherUrl)) = .ok (a, aStamp, aText) →
          b.updatedAt = .ok bStamp ∧ bStamp.render = .ok bText
            ∧ a.updatedAt = .ok aStamp ∧ aStamp.render = .ok aText
            ∧ (r.mounted = true →
              log.length = 6
                ∧ (logTypes log = [.info, .success, .warning, .info, .success, .trigger]
                  ∨ logTypes log = [.info, .success, .warning, .info, .success, .warning])
                ∧ (logMessages log)[1]? = some (utf16 "✅ BEFORE: updated_at = " ++ bText)
                ∧ (logMessages log)[4]? = some (utf16 "✅ AFTER: updated_at = " ++ aText)
                ∧ (∃ m, (logMessages log)[1]? = some m ∧ bText <:+: m)
                ∧ (∃ m, (logMessages log)[4]? = some m ∧ aText <:+: m)) := by
  obtain ⟨hhead, hchain, hlast, hlen⟩ := Sys.always_state _ _ (demo_log_growth_course env s)
  refine ⟨hhead, hchain, hlast, hlen, ?_⟩
  intro b bStamp a aStamp bText aText res h1 h2 h3
  refine ⟨(getStep_ok _ _ _ _ h1).1, (getStep_ok _ _ _ _ h1).2, (getStep_ok _ _ _ _ h3).1,
    (getStep_ok _ _ _ _ h3).2, ?_⟩
  intro hm
  rw [(Sys.state_of_mounted _ hm).1]
  clear hm hhead hchain hlast hlen
  simp only [invoke, runTriggerDemo, if_pos, Prog.fetch_bind, Prog.json_bind, Prog.eval_bind,
    Prog.update_bind, Prog.delay_bind, addResult_bind, Prog.tryCatchFinally, Prog.update,
    setTriggerDemo, addResult, Sys.start, Sys.render, getStep, researcherUrl, List.length_nil,
    List.length_append, List.length_cons, List.nil_append, Nat.zero_add, Nat.reduceAdd]
    at h1 h3 ⊢
  rcases h0 : env.respond 0 (.get (API_BASE ++ utf16 "/researchers/1")) with e0 | r0
  · simp [h0] at h1
  simp only [h0] at h1 ⊢
  rcases j0 : r0.json with e0 | d0
  · simp [j0] at h1
  simp only [j0] at h1 ⊢
  rcases u0 : d0.updatedAt with e0 | stamp0
  · simp [u0] at h1
  simp only [u0, Except.bind] at h1 ⊢
  rcases t0 : stamp0.render with e0 | text0
  · simp [t0] at h1
  simp only [t0, h2] at h1 ⊢
  rcases h4 : env.respond 2 (.get (API_BASE ++ utf16 "/researchers/1")) with e0 | r2
  · simp [h4] at h3
  simp only [h4] at h3 ⊢
  rcases j2 : r2.json with e0 | d2
  · simp [j2] at h3
  simp only [j2] at h3 ⊢
  rcases u2 : d2.updatedAt with e0 | stamp2
  · simp [u2] at h3
  simp only [u2, Except.bind] at h3 ⊢
  rcases t2 : stamp2.render with e0 | text2
  · simp [t2] at h3
  simp only [t2] at h3 ⊢
  simp only [Except.ok.injEq, Prod.mk.injEq] at h1 h3
  obtain ⟨rfl, rfl, rfl⟩ := h1
  obtain ⟨rfl, rfl, rfl⟩ := h3
  by_cases hne : stamp0.strictNe stamp2 = true
  · simp [hne, addResult, setTriggerDemo, Prog.update, logTypes, logMessages]
    exact ⟨(List.suffix_append _ _).isInfix, (List.suffix_append _ _).isInfix⟩
  · simp [hne, addResult, setTriggerDemo, Prog.update, logTypes, logMessages]
    exact ⟨(List.suffix_append _ _).isInfix, (List.suffix_append _ _).isInfix⟩

/-- A run on the demo tab in which the server moves `updated_at` by five
minutes: six log entries, the second ending with the first timestamp. -/
theorem demo_log_growth_witness :
    (invoke (runTriggerDemo
        (stampedEnv (.str (utf16 "2024-01-01T00:00:00Z")) (.str (utf16 "2024-01-01T00:05:00Z")))
        (utf16 "researcher")) demoReady).state.triggerDemo.results.length = 6
      ∧ (logMessages (invoke (runTriggerDemo
        (stampedEnv (.str (utf16 "2024-01-01T00:00:00Z")) (.str (utf16 "2024-01-01T00:05:00Z")))
        (utf16 "researcher")) demoReady).state.triggerDemo.results)[1]?
          = some (utf16 "✅ BEFORE: updated_at = " ++ utf16 "2024-01-01T00:00:00Z") :=
  ⟨(((demo_log_growth
      (stampedEnv (.str (utf16 "2024-01-01T00:00:00Z")) (.str (utf16 "2024-01-01T00:05:00Z")))
      demoReady).2.2.2.2 (recordAt (.str (utf16 "2024-01-01T00:00:00Z")))
      (.str (utf16 "2024-01-01T00:00:00Z")) (recordAt (.str (utf16 "2024-01-01T00:05:00Z")))
      (.str (utf16 "2024-01-01T00:05:00Z")) (utf16 "2024-01-01T00:00:00Z")
      (utf16 "2024-01-01T00:05:00Z") ⟨200, .ok (.obj [])⟩ rfl rfl rfl).2.2.2.2
        (by decide!)).1,
    (((demo_log_growth
      (stampedEnv (.str (utf16 "2024-01-01T00:00:00Z")) (.str (utf16 "2024-01-01T00:05:00Z")))
      demoReady).2.2.2.2 (recordAt (.str (utf16 "2024-01-01T00:00:00Z")))
      (.str (utf16 "2024-01-01T00:00:00Z")) (recordAt (.str (utf16 "2024-01-01T00:05:00Z")))
      (.str (utf16 "2024-01-01T00:05:00Z")) (utf16 "2024-01-01T00:00:00Z")
      (utf16 "2024-01-01T00:05:00Z") ⟨200, .ok (.obj [])⟩ rfl rfl rfl).2.2.2.2
        (by decide!)).2.2.1⟩

/-- C10 as stated fails: on the demo tab, when the first `GET` answers with a
record whose `updated_at` is an object and all three requests succeed, the
render made during the first pacing delay throws on the object (App.js 288)
and unmounts the component: the log ends with two entries instead of six,
and `isRunning` stays true. -/
theorem demo_log_growth_unmounted :
    (stampedEnv (.obj []) (.str (utf16 "2024-01-01T00:05:00Z"))).respond 1
        (putRequest (stampedEnv (.obj []) (.str (utf16 "2024-01-01T00:05:00Z"))))
        = okJson (.obj [])
      ∧ getStep ((stampedEnv (.obj []) (.str (utf16 "2024-01-01T00:05:00Z"))).respond 0
          (.get researcherUrl)) = .ok (recordAt (.obj []), .obj [], utf16 "[object Object]")
      ∧ getStep ((stampedEnv (.obj []) (.str (utf16 "2024-01-01T00:05:00Z"))).respond 2
          (.get researcherUrl))
          = .ok (recordAt (.str (utf16 "2024-01-01T00:05:00Z")),
              .str (utf16 "2024-01-01T00:05:00Z"), utf16 "2024-01-01T00:05:00Z")
      ∧ (invoke (runTriggerDemo (stampedEnv (.obj []) (.str (utf16 "2024-01-01T00:05:00Z")))
          (utf16 "researcher")) demoReady).mounted = false
      ∧ (invoke (runTriggerDemo (stampedEnv (.obj []) (.str (utf16 "2024-01-01T00:05:00Z")))
          (utf16 "researcher")) demoReady).state.triggerDemo.results.length = 2
      ∧ logTypes (invoke (runTriggerDemo
          (stampedEnv (.obj []) (.str (utf16 "2024-01-01T00:05:00Z")))
          (utf16 "researcher")) demoReady).state.triggerDemo.results = [.info, .success]
      ∧ (invoke (runTriggerDemo (stampedEnv (.obj []) (.str (utf16 "2024-01-01T00:05:00Z")))
          (utf16 "researcher")) demoReady).state.triggerDemo.isRunning = true :=
  ⟨rfl, rfl, rfl, by decide!, by decide!, by decide!, by decide!⟩

theorem Request.get_method (url : JsString) : (Request.get url).method = .GET := rfl

theorem putRequest_method (env : Env) : (putRequest env).method = .PUT := rfl

theorem putRequest_env (env : Env) (respond : Nat → Request → Except JsError Response) :
    putRequest { env with respond := respond } = putRequest env := rfl

theorem renders_env (env : Env) (respond : Nat → Request → Except JsError Response)
    (s : AppState) : renders { env with respond := respond } s = renders env s := rfl

theorem fetchData_status (env : Env) (st : Nat → Nat) (s : AppState) :
    invoke (fetchData (env.withStatus st)) s = invoke (fetchData env) s := by
  simp only [invoke, fetchData, Prog.fetch_bind, Prog.json_bind, Prog.eval_bind,
    Prog.update_bind, Prog.tryCatchFinally, Prog.update, Sys.render, renders_env, setLoading,
    setDashboard,
    setFrameworks, setSystemHealth, setResearchers, setProjects, setSimulations, Sys.start,
    Prog.consoleError, Env.withStatus, Request.get_method, List.length_nil, List.length_append,
    List.length_cons, List.nil_append, Nat.zero_add, Nat.reduceAdd]
  rcases h0 : env.respond 0 (.get (API_BASE ++ utf16 "/analytics/dashboard/enhanced")) with e | r0
  · rfl
  simp only []
  rcases j0 : r0.json with e | d0
  · rfl
  simp only [j0]
  rcases h1 : env.respond 1 (.get (API_BASE ++ utf16 "/analytics/frameworks")) with e | r1
  · rfl
  simp only []
  rcases j1 : r1.json with e | d1
  · rfl
  simp only [j1]
  rcases h2 : env.respond 2 (.get (API_BASE ++ utf16 "/health")) with e | r2
  · rfl
  simp only []
  rcases j2 : r2.json with e | d2
  · rfl
  simp only [j2]
  rcases h3 : env.respond 3 (.get (API_BASE ++ utf16 "/researchers")) with e | r3
  · rfl
  simp only []
  rcases j3 : r3.json with e | d3
  · rfl
  simp only [j3]
  rcases p3 : JsVal.sliceTo "resData" 10 d3 with e | v3
  · rfl
  simp only []
  rcases h4 : env.respond 4 (.get (API_BASE ++ utf16 "/projects")) with e | r4
  · rfl
  simp only []
  rcases j4 : r4.json with e | d4
  · rfl
  simp only [j4]
  rcases p4 : JsVal.sliceTo "projData" 10 d4 with e | v4
  · rfl
  simp only []
  rcases h5 : env.respond 5 (.get (API_BASE ++ utf16 "/simulations")) with e | r5
  · rfl
  simp only []

theorem fetchData_unparsed (env : Env) (s : AppState) :
    invoke (fetchData env.rejectUnparsed) s = invoke (fetchData env) s := by
  simp only [invoke, fetchData, Prog.fetch_bind, Prog.json_bind, Prog.eval_bind,
    Prog.update_bind, Prog.tryCatchFinally, Prog.update, Sys.render, renders_env, setLoading,
    setDashboard,
    setFrameworks, setSystemHealth, setResearchers, setProjects, setSimulations, Sys.start,
    Prog.consoleError, Env.rejectUnparsed, Request.get_method, List.length_nil, List.length_append,
    List.length_cons, List.nil_append, Nat.zero_add, Nat.reduceAdd]
  rcases h0 : env.respond 0 (.get (API_BASE ++ utf16 "/analytics/dashboard/enhanced")) with e | r0
  · rfl
  simp only []
  rcases j0 : r0.json with e | d0
  · rfl
  simp only [j0]
  rcases h1 : env.respond 1 (.get (API_BASE ++ utf16 "/analytics/frameworks")) with e | r1
  · rfl
  simp only []
  rcases j1 : r1.json with e | d1
  · rfl
  simp only [j1]
  rcases h2 : env.respond 2 (.get (API_BASE ++ utf16 "/health")) with e | r2
  · rfl
  simp only []
  rcases j2 : r2.json with e | d2
  · rfl
  simp only [j2]
  rcases h3 : env.respond 3 (.get (API_BASE ++ utf16 "/researchers")) with e | r3
  · rfl
  simp only []
  rcases j3 : r3.json with e | d3
  · rfl
  simp only [j3]
  rcases p3 : JsVal.sliceTo "resData" 10 d3 with e | v3
  · rfl
  simp only []
  rcases h4 : env.respond 4 (.get (API_BASE ++ utf16 "/projects")) with e | r4
  · rfl
  simp only []
  rcases j4 : r4.json with e | d4
  · rfl
  simp only [j4]
  rcases p4 : JsVal.sliceTo "projData" 10 d4 with e | v4
  · rfl
  simp only []
  rcases h5 : env.respond 5 (.get (API_BASE ++ utf16 "/simulations")) with e | r5
  · rfl
  simp only []
  rcases j5 : r5.json with e | d5
  · rfl
  simp only [j5]

theorem demo_status (env : Env) (st : Nat → Nat) (s : AppState) :
    invoke (runTriggerDemo (env.withStatus st) (utf16 "researcher")) s
      = invoke (runTriggerDemo env (utf16 "researcher")) s := by
  simp only [invoke, runTriggerDemo, Prog.fetch_bind, Prog.json_bind,
    Prog.eval_bind, Prog.update_bind, Prog.delay_bind, addResult_bind, Prog.tryCatchFinally,
    Prog.update, Sys.render, renders_env, setTriggerDemo, addResult, Sys.start, Env.withStatus,
    Request.get_method,
    putRequest_method, putRequest_env, if_true, List.length_nil, List.length_append,
    List.length_cons, List.nil_append, Nat.zero_add, Nat.reduceAdd]
  rcases h0 : env.respond 0 (.get (API_BASE ++ utf16 "/researchers/1")) with e0 | r0
  · rfl
  simp only []
  rcases j0 : r0.json with e0 | d0
  · rfl
  simp only [j0]
  rcases u0 : (d0.updatedAt).bind JsVal.render with e0 | text0
  · rfl
  simp only []
  rcases h1 : env.respond 1 (putRequest env) with e0 | r1
  · rfl
  simp only []
  rcases h2 : env.respond 2 (.get (API_BASE ++ utf16 "/researchers/1")) with e0 | r2
  · rfl
  simp only []
  rcases j2 : r2.json with e0 | d2
  · rfl
  simp only [j2]
  rfl

theorem demo_unparsed (env : Env) (s : AppState) :
    invoke (runTriggerDemo env.rejectUnparsed (utf16 "researcher")) s
      = invoke (runTriggerDemo env (utf16 "researcher")) s := by
  simp only [invoke, runTriggerDemo, Prog.fetch_bind, Prog.json_bind,
    Prog.eval_bind, Prog.update_bind, Prog.delay_bind, addResult_bind, Prog.tryCatchFinally,
    Prog.update, Sys.render, renders_env, setTriggerDemo, addResult, Sys.start,
    Env.rejectUnparsed, Request.get_method,
    putRequest_method, putRequest_env, if_true, List.length_nil, List.length_append,
    List.length_cons, List.nil_append, Nat.zero_add, Nat.reduceAdd]
  rcases h0 : env.respond 0 (.get (API_BASE ++ utf16 "/researchers/1")) with e0 | r0
  · rfl
  simp only []
  rcases j0 : r0.json with e0 | d0
  · rfl
  simp only [j0]
  rcases u0 : (d0.updatedAt).bind JsVal.render with e0 | text0
  · rfl
  simp only []
  rcases h1 : env.respond 1 (putRequest env) with e0 | r1
  · rfl
  simp only []
  rcases h2 : env.respond 2 (.get (API_BASE ++ utf16 "/researchers/1")) with e0 | r2
  · rfl
  simp only []
  rcases j2 : r2.json with e0 | d2
  · rfl
  simp only [j2]
  rfl


/-- C3, amended: the status of a response is never read. Replacing the status
of every response by any other leaves the whole course of `fetchData` and of
`runTriggerDemo('researcher')` unchanged (states, requests, console), so a
response with a non-success status is handled exactly like a success response
with the same body: `fetchData` stores its parsed body and goes on to the
remaining requests, and a `PUT` answered with a non-success status proceeds
to the second `GET`. A rejected `fetch` and a body that does not parse are
surfaced identically: turning every unparseable `GET` body into a rejection
with the same error changes nothing in either course. -/
theorem status_never_read (env : Env) (st : Nat → Nat) (s : AppState) :
    invoke (fetchData (env.withStatus st)) s = invoke (fetchData env) s
      ∧ invoke (runTriggerDemo (env.withStatus st) (utf16 "researcher")) s
          = invoke (runTriggerDemo env (utf16 "researcher")) s
      ∧ invoke (fetchData env.rejectUnparsed) s = invoke (fetchData env) s
      ∧ invoke (runTriggerDemo env.rejectUnparsed (utf16 "researcher")) s
          = invoke (runTriggerDemo env (utf16 "researcher")) s :=
  ⟨fetchData_status env st s, demo_status env st s, fetchData_unparsed env s,
    demo_unparsed env s⟩

/-- C3 as stated fails: a dashboard response with status 500 and a parseable
error body is stored in the dashboard slot and all six requests are issued,
whereas a rejected `fetch` leaves the slot untouched and stops after one
request; and a `PUT` answered with status 500 is followed by the second
`GET`, the run ending without any error entry. -/
theorem status_500_not_a_failure :
    Response.ok { status := 500, json := .ok errorBody } = false
      ∧ (invoke (fetchData (scriptEnv [serverError, okJson (.arr []), okJson (.arr []),
          okJson (.arr []), okJson (.arr []), okJson (.arr [])]))
          AppState.initial).state.dashboard = errorBody
      ∧ (invoke (fetchData (scriptEnv [serverError, okJson (.arr []), okJson (.arr []),
          okJson (.arr []), okJson (.arr []), okJson (.arr [])]))
          AppState.initial).requests.length = 6
      ∧ (invoke (fetchData (scriptEnv [.error networkError])) AppState.initial).state.dashboard
          = .null
      ∧ (invoke (fetchData (scriptEnv [.error networkError])) AppState.initial).requests.length
          = 1
      ∧ (invoke (runTriggerDemo
          (scriptEnv [okJson (recordAt (.str (utf16 "2024-01-01T00:00:00Z"))), serverError,
            okJson (recordAt (.str (utf16 "2024-01-01T00:00:00Z")))])
          (utf16 "researcher")) AppState.initial).requests
            = [.get researcherUrl,
                putRequest (scriptEnv []), .get researcherUrl]
      ∧ logTypes (invoke (runTriggerDemo
          (scriptEnv [okJson (recordAt (.str (utf16 "2024-01-01T00:00:00Z"))), serverError,
            okJson (recordAt (.str (utf16 "2024-01-01T00:00:00Z")))])
          (utf16 "researcher")) AppState.initial).state.triggerDemo.results
            = [.info, .success, .warning, .info, .success, .warning] := by
  have hm : (invoke (fetchData (scriptEnv [serverError, okJson (.arr []), okJson (.arr []),
      okJson (.arr []), okJson (.arr []), okJson (.arr [])])) AppState.initial).mounted
        = true := by decide!
  refine ⟨rfl, ?_, rfl, rfl, rfl, rfl, rfl⟩
  rw [(Sys.state_of_mounted _ hm).1]
  rfl


theorem consistent_mount : mount.consistent = true := by decide

theorem consistent_step (r : Refresh) (ev : Event) (h : r.consistent = true) :
    (step r ev).consistent = true := by
  obtain ⟨auto, timers, nextId, interval, fetches⟩ := r
  cases ev with
  | toggle =>
    cases auto <;> rcases timers with _ | ⟨t, _ | ⟨t2, rest⟩⟩ <;> cases interval <;>
      simp [Refresh.consistent, step, runEffect, runCleanup] at h ⊢
    · exact h
    · obtain ⟨⟨⟨h1, _⟩, h3⟩, h4⟩ := h
      subst h1
      have : t.id ≠ 0 := by omega
      simp [this]
      omega
  | tick id =>
    simp only [step]
    split <;> exact h
  | refreshNow => exact h

theorem consistent_run (events : List Event) (r : Refresh) (h : r.consistent = true) :
    (run r events).consistent = true := by
  induction events generalizing r with
  | nil => exact h
  | cons ev rest ih => exact ih (step r ev) (consistent_step r ev h)

theorem consistent_timers (r : Refresh) (h : r.consistent = true) :
    (r.autoRefresh = true → ∃ id, 0 < id ∧ r.timers = [{ id := id, period := 5000 }]
        ∧ r.interval = some id)
      ∧ (r.autoRefresh = false → r.timers = [] ∧ r.interval = none) := by
  obtain ⟨auto, timers, nextId, interval, fetches⟩ := r
  cases auto <;> rcases timers with _ | ⟨t, _ | ⟨t2, rest⟩⟩ <;> cases interval <;>
    simp [Refresh.consistent] at h ⊢
  obtain ⟨⟨⟨h1, h2⟩, h3⟩, _⟩ := h
  obtain ⟨id, period⟩ := t
  simp at h1 h2
  subst h1 h2
  exact ⟨h3, rfl⟩

theorem idle_run (later : List Event) (r : Refresh) (ht : r.timers = [])
    (hl : ∀ e ∈ later, e ≠ Event.toggle) :
    (run r later).fetches = r.fetches ++ manualFetches later
      ∧ (run r later).timers = [] ∧ (run r later).autoRefresh = r.autoRefresh := by
  induction later generalizing r with
  | nil => simp [run, manualFetches, ht]
  | cons ev rest ih =>
    have hrest : ∀ e ∈ rest, e ≠ Event.toggle := fun e he => hl e (List.mem_cons_of_mem _ he)
    cases ev with
    | toggle => exact absurd rfl (hl .toggle (List.mem_cons_self _ _))
    | tick id =>
      have hs : step r (.tick id) = r := by simp [step, ht]
      have := ih r ht hrest
      simpa [run, hs, manualFetches] using this
    | refreshNow =>
      have := ih (step r .refreshNow) (by simpa [step] using ht) hrest
      simpa [run, step, manualFetches] using this

/-- C5: in every state reached from the initial mount by any sequence of
toggles (and timer ticks and "Refresh Now" clicks), there is exactly one live
interval timer when `autoRefresh` is true and none when it is false, and
every live timer has period 5000 ms; and toggling `autoRefresh` from false
to true leaves exactly one timer, newly created with period 5000 ms, and
starts exactly one fetch, which the effect itself makes, not the timer. -/
theorem refresh_one_timer (events : List Event) :
    let r := run mount events
    r.timers.length = (if r.autoRefresh = true then 1 else 0)
      ∧ (∀ t ∈ r.timers, t.period = 5000)
      ∧ (r.autoRefresh = false →
          (step r .toggle).autoRefresh = true
            ∧ (step r .toggle).timers = [{ id := r.nextId, period := 5000 }]
            ∧ (∀ t ∈ r.timers, t.id ≠ r.nextId)
            ∧ (step r .toggle).fetches = r.fetches ++ [FetchCause.effect]) := by
  intro r
  have hc : r.consistent = true := consistent_run events mount consistent_mount
  obtain ⟨hon, hoff⟩ := consistent_timers r hc
  refine ⟨?_, ?_, ?_⟩
  · by_cases ha : r.autoRefresh = true
    · obtain ⟨id, _, ht, _⟩ := hon ha
      simp [ha, ht]
    · have ha' : r.autoRefresh = false := by simpa using ha
      simp [ha', (hoff ha').1]
  · intro t ht
    by_cases ha : r.autoRefresh = true
    · obtain ⟨id, _, hts, _⟩ := hon ha
      rw [hts] at ht
      simp at ht
      rw [ht]
    · have ha' : r.autoRefresh = false := by simpa using ha
      rw [(hoff ha').1] at ht
      simp at ht
  · intro ha
    obtain ⟨ht, hi⟩ := hoff ha
    simp [step, runEffect, runCleanup, ha, ht, hi]

/-- After one toggle the flag is off and a second toggle turns it on again. -/
theorem refresh_one_timer_witness :
    (step (run mount [.toggle]) .toggle).timers = [{ id := 2, period := 5000 }]
      ∧ (step (run mount [.toggle]) .toggle).fetches
          = (run mount [.toggle]).fetches ++ [FetchCause.effect] :=
  ⟨((refresh_one_timer [.toggle]).2.2 rfl).2.1, ((refresh_one_timer [.toggle]).2.2 rfl).2.2.2⟩

theorem toggle_off (r : Refresh) (hc : r.consistent = true) (hon : r.autoRefresh = true) :
    (step r .toggle).autoRefresh = false ∧ (step r .toggle).timers = []
      ∧ (step r .toggle).fetches = r.fetches ++ [FetchCause.effect] := by
  obtain ⟨id, hid, ht, hi⟩ := (consistent_timers r hc).1 hon
  obtain ⟨auto, timers, nextId, interval, fetches⟩ := r
  simp only at hon ht hi
  subst hon ht hi
  have hne : id ≠ 0 := by omega
  simp [step, runEffect, runCleanup, hne]

/-- C4, amended: whenever the toggle goes from true to false, the timer the
previous effect run scheduled is cancelled and no timer is left, the
transition itself starts exactly one fetch (the effect runs again and calls
`fetchData` unconditionally), and from then on, as long as the toggle stays
off, the only fetches started are those of "Refresh Now" clicks. -/
theorem refresh_toggle_off (events : List Event)
    (hon : (run mount events).autoRefresh = true) :
    (step (run mount events) .toggle).autoRefresh = false
      ∧ (step (run mount events) .toggle).timers = []
      ∧ (step (run mount events) .toggle).fetches
          = (run mount events).fetches ++ [FetchCause.effect]
      ∧ ∀ later : List Event, (∀ e ∈ later, e ≠ Event.toggle) →
          (run (step (run mount events) .toggle) later).fetches
              = (step (run mount events) .toggle).fetches ++ manualFetches later
            ∧ (run (step (run mount events) .toggle) later).timers = []
            ∧ (run (step (run mount events) .toggle) later).autoRefresh = false := by
  have hc : (run mount events).consistent = true :=
    consistent_run events mount consistent_mount
  obtain ⟨h1, h2, h3⟩ := toggle_off (run mount events) hc hon
  refine ⟨h1, h2, h3, ?_⟩
  intro later hl
  have := idle_run later _ h2 hl
  rw [h1] at this
  exact this

/-- Toggling off right after the mount, then two ticks of the cancelled timer
and one "Refresh Now". -/
theorem refresh_toggle_off_witness :
    (run (step (run mount []) .toggle) [.tick 1, .refreshNow, .tick 1]).fetches
      = (step (run mount []) .toggle).fetches
          ++ manualFetches [.tick 1, .refreshNow, .tick 1] :=
  ((refresh_toggle_off [] rfl).2.2.2 [.tick 1, .refreshNow, .tick 1] (by decide)).1

/-- C4 as stated fails: the toggle-off transition itself starts a fetch.
After the mount one fetch has been started; toggling `autoRefresh` off
starts a second one, with no "Refresh Now" involved. -/
theorem refresh_toggle_off_fetches :
    mount.autoRefresh = true
      ∧ (step mount .toggle).autoRefresh = false
      ∧ mount.fetches = [FetchCause.effect]
      ∧ (step mount .toggle).fetches = [FetchCause.effect, FetchCause.effect] := by
  decide

/-- C11: for every `demoType` other than `'researcher'`, `runTriggerDemo`
issues no HTTP request, awaits no delay and appends no log entry (the log is
empty in every state the run produces); whatever the demo state was before
the call, it ends with `before = null`, `after = null`, `isRunning = false`
and an empty log, the rest of the component state untouched. -/
theorem demo_other_type (env : Env) (s : AppState) (demoType : JsString)
    (h : demoType ≠ utf16 "researcher") :
    (invoke (runTriggerDemo env demoType) s).requests = []
      ∧ (invoke (runTriggerDemo env demoType) s).delays = []
      ∧ (∀ t ∈ (invoke (runTriggerDemo env demoType) s).history, t.triggerDemo.results = [])
      ∧ (invoke (runTriggerDemo env demoType) s).state.triggerDemo.before = .null
      ∧ (invoke (runTriggerDemo env demoType) s).state.triggerDemo.after = .null
      ∧ (invoke (runTriggerDemo env demoType) s).state.triggerDemo.isRunning = false
      ∧ (invoke (runTriggerDemo env demoType) s).state.triggerDemo.results = []
      ∧ (invoke (runTriggerDemo env demoType) s).state
          = { s with
              triggerDemo :=
                { before := .null, after := .null, isRunning := false, results := [] } } := by
  simp only [invoke, runTriggerDemo, if_neg h, Prog.update_bind, Prog.tryCatchFinally,
    setTriggerDemo, Prog.update, Sys.start, pure, Prog.ret, List.nil_append]
  simp [Sys.state, Sys.history, Sys.failed]

/-- A demo type the component never passes, run on a state left by an
earlier demo: nothing is requested and the log ends empty. -/
theorem demo_other_type_witness :
    (invoke (runTriggerDemo (scriptEnv []) (utf16 "project"))
        { AppState.initial with
          triggerDemo :=
            { before := recordAt .null, after := recordAt .null, isRunning := false,
              results := [{ message := utf16 "old", type := .info, time := [] }] } }).requests
        = []
      ∧ (invoke (runTriggerDemo (scriptEnv []) (utf16 "project"))
        { AppState.initial with
          triggerDemo :=
            { before := recordAt .null, after := recordAt .null, isRunning := false,
              results := [{ message := utf16 "old", type := .info, time := [] }] }
        }).state.triggerDemo.results = [] :=
  ⟨(demo_other_type (scriptEnv []) _ (utf16 "project") (by decide)).1,
    (demo_other_type (scriptEnv []) _ (utf16 "project") (by decide)).2.2.2.2.2.2.1⟩

end Qslrm
